import Mathlib

/-!
Shallow embedding of the MetaStats aggregation core of the telemetry SDK
(src/lib/stats/MetaStats.cpp), together with proofs about the claims of its
specification.  C++ maps (std::map) are embedded as association lists; the
numeric distributions keep the key-sorted order of std::map because their
iteration order is observable in the serialized output.  Unsigned 32-bit
arithmetic is embedded on Nat with explicit reduction modulo 2^32 at every
arithmetic step that the C++ performs on an unsigned int.
-/

namespace MetaStatsModel

/-- Modulus of the C++ type unsigned int (32-bit). -/
def U32 : Nat := 4294967296

/-- Largest representable unsigned int value (UINT_MAX). -/
def UINT_MAX : Nat := 4294967295

/-- Wrapping unsigned subtraction: the value of the C++ expression a - b on
unsigned int operands already reduced below 2^32. -/
def usub (a b : Nat) : Nat := (a + (U32 - b % U32)) % U32

/-- Embedding of std::map<unsigned int, unsigned int>: a list of key/value
pairs kept strictly sorted by key, mirroring the in-order iteration of the
C++ map. -/
abbrev Dist : Type := List (Nat × Nat)

/-- Strict key-sortedness invariant of the std::map embedding. -/
def DistSorted : Dist → Prop
  | [] => True
  | [_] => True
  | (k₁, _) :: (k₂, v₂) :: rest => k₁ < k₂ ∧ DistSorted ((k₂, v₂) :: rest)

instance : DecidablePred DistSorted := by
  intro d
  induction d with
  | nil => exact isTrue trivial
  | cons p rest ih =>
      cases rest with
      | nil => exact isTrue trivial
      | cons q tail =>
          unfold DistSorted
          exact @instDecidableAnd _ _ (Nat.decLt _ _) ih

/-- Lookup with default 0: the value of map[k] when the read does not insert
(or the value that an operator[] read returns right after its insertion). -/
def distGetD (k : Nat) : Dist → Nat
  | [] => 0
  | (k', v) :: rest => if k = k' then v else distGetD k rest

/-- Keys of the distribution, in iteration order. -/
def distKeys : Dist → List Nat := List.map Prod.fst

/-- Sum of all counts in the distribution. -/
def distTotal : Dist → Nat
  | [] => 0
  | (_, v) :: rest => v + distTotal rest

/-- Embedding of the C++ operator[] combined with an update of the mapped
value: dist[k] is default-inserted as 0 when missing (keeping keys sorted,
as std::map does), then its value is replaced by f applied to it. -/
def distIdx (k : Nat) (f : Nat → Nat) : Dist → Dist
  | [] => [(k, f 0)]
  | (k', v) :: rest =>
      if k < k' then (k, f 0) :: (k', v) :: rest
      else if k = k' then (k', f v) :: rest
      else (k', v) :: distIdx k f rest

/-- Embedding of a bare operator[] access whose returned reference is only
read: the entry is default-inserted when missing, values are unchanged. -/
def distTouch (k : Nat) : Dist → Dist := distIdx k id

/-- Embedding of the assignment dist[k] = v. -/
def distSet (k v : Nat) : Dist → Dist := distIdx k (fun _ => v)

/-- Embedding of clearMapValues (MetaStats.cpp line 97): zero every mapped
value, keep the key set. -/
def distClearValues : Dist → Dist := List.map (fun p => (p.1, 0))

/-- Embedding of std::map<std::string, unsigned int> (semantic maps).  The
theorems below never observe its iteration order, so new keys are appended. -/
abbrev SDist : Type := List (String × Nat)

/-- Value-clearing for string-keyed maps (clearMapValues). -/
def sdistClearValues : SDist → SDist := List.map (fun p => (p.1, 0))

/-- Generic association-list lookup for the remaining std::map embeddings
whose iteration order the theorems never observe. -/
def alistFind? {κ α : Type} [DecidableEq κ] (k : κ) : List (κ × α) → Option α
  | [] => none
  | (k', v) :: rest => if k = k' then some v else alistFind? k rest

/-- Lookup with an explicit default, mirroring a read through operator[]. -/
def alistGetD {κ α : Type} [DecidableEq κ] (d : α) (k : κ) (m : List (κ × α)) : α :=
  match alistFind? k m with
  | some v => v
  | none => d

/-- Embedding of operator[] with a value update: default-insert the entry
when missing (appended; order unobserved), then update it with f. -/
def alistIdx {κ α : Type} [DecidableEq κ] (d : α) (k : κ) (f : α → α) :
    List (κ × α) → List (κ × α)
  | [] => [(k, f d)]
  | (k', v) :: rest =>
      if k = k' then (k', f v) :: rest else (k', v) :: alistIdx d k f rest

/-- Embedding of a bare operator[] access that only reads the entry. -/
def alistTouch {κ α : Type} [DecidableEq κ] (d : α) (k : κ) (m : List (κ × α)) :
    List (κ × α) :=
  alistIdx d k id m

/-- Modelled from the spec: the EventLatency priority enumeration declared in
the missing MetaStats header; values below 0 mean no class, and the four
classes are Normal, CostDeferred, RealTime and Max (distinct non-negative
enumerator values). -/
def EventLatency_Normal : Int := 1

/-- Modelled from the spec: the CostDeferred latency class enumerator. -/
def EventLatency_CostDeferred : Int := 2

/-- Modelled from the spec: the RealTime latency class enumerator. -/
def EventLatency_RealTime : Int := 3

/-- Modelled from the spec: the Max latency class enumerator. -/
def EventLatency_Max : Int := 4

/-- Modelled from the spec: the EventRejectedReason enumerator for an invalid
client message type (distinct values 0..8 stand in for the enum of the
missing header; only their distinctness is used). -/
def REJECTED_REASON_INVALID_CLIENT_MESSAGE_TYPE : Nat := 0

/-- Modelled from the spec: rejection reason, required argument missing. -/
def REJECTED_REASON_REQUIRED_ARGUMENT_MISSING : Nat := 1

/-- Modelled from the spec: rejection reason, event name missing. -/
def REJECTED_REASON_EVENT_NAME_MISSING : Nat := 2

/-- Modelled from the spec: rejection reason, validation failed. -/
def REJECTED_REASON_VALIDATION_FAILED : Nat := 3

/-- Modelled from the spec: rejection reason, old record version. -/
def REJECTED_REASON_OLD_RECORD_VERSION : Nat := 4

/-- Modelled from the spec: rejection reason, event expired. -/
def REJECTED_REASON_EVENT_EXPIRED : Nat := 5

/-- Modelled from the spec: rejection reason, server declined (403). -/
def REJECTED_REASON_SERVER_DECLINED : Nat := 6

/-- Modelled from the spec: rejection reason, tenant killed. -/
def REJECTED_REASON_TENANT_KILLED : Nat := 7

/-- Modelled from the spec: rejection reason, event size limit exceeded. -/
def REJECTED_REASON_EVENT_SIZE_LIMIT_EXCEEDED : Nat := 8

/-- Modelled from the spec: the EventDroppedReason enumerator for an offline
storage save failure. -/
def DROPPED_REASON_OFFLINE_STORAGE_SAVE_FAILED : Nat := 0

/-- Modelled from the spec: the EventDroppedReason enumerator for the retry
limit being exceeded. -/
def DROPPED_REASON_RETRY_EXCEEDED : Nat := 1

/-- RollUpKind enumeration (values used by MetaStats.cpp). -/
inductive RollUpKind where
  | ACT_STATS_ROLLUP_KIND_START
  | ACT_STATS_ROLLUP_KIND_ONGOING
  | ACT_STATS_ROLLUP_KIND_STOP
deriving DecidableEq

export RollUpKind (ACT_STATS_ROLLUP_KIND_START ACT_STATS_ROLLUP_KIND_ONGOING
  ACT_STATS_ROLLUP_KIND_STOP)

/-- Embedding of RollUpKindToString (MetaStats.cpp line 19).  The modelled
enum has exactly the three listed values, so the default branch is the
unreachable fallthrough of the C++ switch. -/
def RollUpKindToString : RollUpKind → String
  | ACT_STATS_ROLLUP_KIND_START => "start"
  | ACT_STATS_ROLLUP_KIND_STOP => "stop"
  | ACT_STATS_ROLLUP_KIND_ONGOING => "ongoing"

/-- Modelled from the spec: LatencyStats of the missing MetaStats header;
min/max scalars plus one Distribution, min initialized to the maximum
representable value and max to 0. -/
structure LatencyStats where
  maxOfLatencyInMilliSecs : Nat := 0
  minOfLatencyInMilliSecs : Nat := UINT_MAX
  latencyDistribution : Dist := []
deriving DecidableEq

/-- Modelled from the spec: RecordStats of the missing MetaStats header;
per-scope counters, size extremes and totals, size histogram, reason maps,
per-event-type maps and the per-HTTP-code dropped map. -/
structure RecordStats where
  bannedCount : Nat := 0
  receivedCount : Nat := 0
  receivedMetastatsCount : Nat := 0
  sentCount : Nat := 0
  sentCountFromCurrentSession : Nat := 0
  sentCountFromPreviousSession : Nat := 0
  droppedCount : Nat := 0
  overflownCount : Nat := 0
  rejectedCount : Nat := 0
  maxOfRecordSizeInBytes : Nat := 0
  minOfRecordSizeInBytes : Nat := UINT_MAX
  totalRecordsSizeInBytes : Nat := 0
  droppedCountReasonDistribution : Dist := []
  rejectedCountReasonDistribution : Dist := []
  droppedCountPerHttpReturnCode : Dist := []
  sizeInKBytesDistribution : Dist := []
  semanticToRecordCountMap : SDist := []
  semanticToExceptionCountMap : SDist := []
deriving DecidableEq

/-- Modelled from the spec: PackageStats of the missing MetaStats header;
batch-level counters and the per-HTTP-code retry/drop maps. -/
structure PackageStats where
  totalPkgsNotToBeAcked : Nat := 0
  totalPkgsToBeAcked : Nat := 0
  totalMetastatsOnlyPkgsToBeAcked : Nat := 0
  totalPkgsAcked : Nat := 0
  totalMetastatsOnlyPkgsAcked : Nat := 0
  successPkgsAcked : Nat := 0
  retryPkgsAcked : Nat := 0
  dropPkgsAcked : Nat := 0
  totalBandwidthConsumedInBytes : Nat := 0
  dropPkgsPerHttpReturnCode : Dist := []
  retryPkgsPerHttpReturnCode : Dist := []
deriving DecidableEq

/-- Modelled from the spec: OfflineStorageStats of the missing MetaStats
header. -/
structure OfflineStorageStats where
  storageFormat : String := ""
  lastFailureReason : String := ""
  fileSizeInBytes : Nat := 0
  saveSizeInKBytesDistribution : Dist := []
  overwrittenSizeInKBytesDistribution : Dist := []
deriving DecidableEq

/-- Modelled from the spec: TelemetryStats of the missing MetaStats header;
the composite per-tenant (and one global) aggregate. -/
structure TelemetryStats where
  tenantId : String := ""
  sessionId : String := ""
  sessionStartTimestamp : Nat := 0
  session_startup_time_in_millisec : Nat := 0
  statsStartTimestamp : Nat := 0
  statsSequenceNum : Nat := 0
  offlineStorageEnabled : Bool := false
  resourceManagerEnabled : Bool := false
  ecsClientEnabled : Bool := false
  packageStats : PackageStats := {}
  retriesCountDistribution : Dist := []
  rttStats : LatencyStats := {}
  logToSuccessfulSendLatencyPerLatency : List (Int × LatencyStats) := []
  recordStats : RecordStats := {}
  recordStatsPerLatency : List (Int × RecordStats) := []
  offlineStorageStats : OfflineStorageStats := {}
deriving DecidableEq

/-- Modelled from the spec: the histogram configuration parameters consumed
from IRuntimeConfig / the stats configuration (section 6 of the spec). -/
structure StatsConfig where
  rtt_first_duration_in_millisecs : Nat := 100
  rtt_next_factor : Nat := 2
  rtt_total_spots : Nat := 10
  latency_first_duration_in_millisecs : Nat := 100
  latency_next_factor : Nat := 2
  latency_total_spots : Nat := 10
  record_size_first_in_kb : Nat := 1
  record_size_next_factor : Nat := 2
  record_size_total_spots : Nat := 10
  storage_size_first_in_kb : Nat := 1
  storage_size_next_factor : Nat := 2
  storage_size_total_spots : Nat := 10
deriving DecidableEq

/-- State of the MetaStats engine: the per-tenant map, the global row, the
session UUID, and the configuration values it consumes. -/
structure MetaStatsState where
  m_telemetryTenantStats : List (String × TelemetryStats) := []
  m_telemetryStats : TelemetryStats := {}
  m_sessionId : String := ""
  m_statsConfig : StatsConfig := {}
  metaStatsTenantToken : String := ""
  metaStatsSendIntervalSec : Nat := 0
deriving DecidableEq

/-- Embedding of the projected logical record: iKey, name, baseType and the
extension property map data[0].properties with its string payloads. -/
structure AriaRecord where
  iKey : String := ""
  name : String := ""
  baseType : String := ""
  props : List (String × String) := []
deriving DecidableEq

/-- Assignment target[key] = value on the extension property map. -/
def propSet (k v : String) (ext : List (String × String)) : List (String × String) :=
  alistIdx "" k (fun _ => v) ext

/-- Embedding of insertNonZero (MetaStats.cpp line 104): write the decimal
string of the value under the key only when the value is non-zero. -/
def insertNonZero (ext : List (String × String)) (k : String) (v : Nat) :
    List (String × String) :=
  if v ≠ 0 then propSet k (toString v) ext else ext

/-- Tenant id of a tenant token: the token up to the first dash; the whole
token when no dash occurs (substr(0, find('-')) in the source). -/
def tenantIdOf (tok : String) : String :=
  String.mk (tok.toList.takeWhile (fun c => c ≠ '-'))

/-- Loop body of initDistributionKeys (MetaStats.cpp lines 46-59): run the
remaining iterations, carrying lastkey; each iteration computes the next key
with wrapping unsigned arithmetic and assigns distribution[key] = 0. -/
def initDistLoop (firstValue increment : Nat) (factor : Bool) :
    Nat → Nat → Dist → Dist
  | 0, _, d => d
  | n + 1, lastkey, d =>
      let key :=
        if lastkey = 0 then firstValue
        else if factor then (increment * lastkey) % U32
        else (lastkey + increment) % U32
      initDistLoop firstValue increment factor n key (distSet key 0 d)

/-- Embedding of initDistributionKeys (MetaStats.cpp line 41): clear, insert
key 0 with value 0, then totalSpot - 1 further keys generated geometrically
(factor = true) or linearly from firstValue. -/
def initDistributionKeys (firstValue increment totalSpot : Nat)
    (factor : Bool := true) : Dist :=
  initDistLoop firstValue increment factor (totalSpot - 1) 0 [(0, 0)]

/-- Tail of the updateMap walk (MetaStats.cpp lines 73-87) after the loop has
passed at least one key ≤ value: cur is the last visited entry with key ≤
value; on finding the first key > value (or the end), cur's count is
incremented (wrapping). -/
def updateMapGo (value : Nat) (cur : Nat × Nat) : Dist → Dist
  | [] => [(cur.1, (cur.2 + 1) % U32)]
  | (k, v) :: rest =>
      if value < k then (cur.1, (cur.2 + 1) % U32) :: (k, v) :: rest
      else cur :: updateMapGo value (k, v) rest

/-- Embedding of updateMap (MetaStats.cpp line 67): no-op on an empty
distribution; otherwise increment the count of the last key ≤ value, or the
first bucket when every key exceeds value. -/
def updateMap (d : Dist) (value : Nat) : Dist :=
  match d with
  | [] => []
  | (k, v) :: rest =>
      if value < k then ((k, (v + 1) % U32) :: rest : Dist)
      else updateMapGo value (k, v) rest

/-- String built by the aggregation loop of addAggregatedMapToRecordFields
(MetaStats.cpp lines 145-163) over a non-empty distribution; the last entry
is rendered without a trailing comma and, in range mode, with a greater-than
marker. -/
def serializeUintDist (range : Bool) : Dist → String
  | [] => ""
  | [(k, v)] =>
      if range then ">" ++ toString k ++ ":" ++ toString v
      else toString k ++ ":" ++ toString v
  | (k, v) :: (k₂, v₂) :: rest =>
      (if range then
        toString k ++ "-" ++ toString k₂ ++ ":" ++ toString v ++ ","
      else toString k ++ ":" ++ toString v ++ ",") ++
      serializeUintDist range ((k₂, v₂) :: rest)

/-- Embedding of the uint-keyed addAggregatedMapToRecordFields (MetaStats.cpp
line 128), acting on the extension property map: skip empty distributions,
otherwise store the serialized distribution under the given name. -/
def addAggregatedMapToRecordFields (ext : List (String × String))
    (distributionName : String) (distribution : Dist) (range : Bool := true) :
    List (String × String) :=
  if distribution = [] then ext
  else propSet distributionName (serializeUintDist range distribution) ext

/-- String built by the string-keyed aggregation loop (MetaStats.cpp lines
189-199). -/
def serializeStrDist : SDist → String
  | [] => ""
  | [(k, v)] => k ++ ":" ++ toString v
  | (k, v) :: (k₂, v₂) :: rest =>
      k ++ ":" ++ toString v ++ "," ++ serializeStrDist ((k₂, v₂) :: rest)

/-- Embedding of the string-keyed addAggregatedMapToRecordFields
(MetaStats.cpp line 179). -/
def addAggregatedStrMapToRecordFields (ext : List (String × String))
    (distributionName : String) (distribution : SDist) :
    List (String × String) :=
  if distribution = [] then ext
  else propSet distributionName (serializeStrDist distribution) ext

/-- Embedding of addCountsPerHttpReturnCodeToRecordFields (MetaStats.cpp line
216): one insertNonZero per map entry, keyed by the given name, an
underscore and the HTTP code. -/
def addCountsPerHttpReturnCodeToRecordFields (ext : List (String × String))
    (pfx : String) (counts : Dist) : List (String × String) :=
  counts.foldl (fun e item => insertNonZero e (pfx ++ "_" ++ toString item.1) item.2) ext

/-- One step of addRecordsPerRejectedReasonToRecordFields: operator[] on the
reason map (default-inserting the key) followed by insertNonZero of the read
value under the output key. -/
def rejReasonStep (outKey : String) (reason : Nat)
    (st : List (String × String) × Dist) : List (String × String) × Dist :=
  let d := distTouch reason st.2
  (insertNonZero st.1 outKey (distGetD reason d), d)

/-- Embedding of addRecordsPerRejectedReasonToRecordFields (MetaStats.cpp
line 238): nine sequential operator[] reads on the reason map (each
default-inserting its key), each written through insertNonZero; the five
invalid-family reasons all target the key r_inv. -/
def addRecordsPerRejectedReasonToRecordFields (ext : List (String × String))
    (reasonMap : Dist) : List (String × String) × Dist :=
  (rejReasonStep "r_size" REJECTED_REASON_EVENT_SIZE_LIMIT_EXCEEDED
    (rejReasonStep "r_kl" REJECTED_REASON_TENANT_KILLED
      (rejReasonStep "r_403" REJECTED_REASON_SERVER_DECLINED
        (rejReasonStep "r_exp" REJECTED_REASON_EVENT_EXPIRED
          (rejReasonStep "r_inv" REJECTED_REASON_OLD_RECORD_VERSION
            (rejReasonStep "r_inv" REJECTED_REASON_VALIDATION_FAILED
              (rejReasonStep "r_inv" REJECTED_REASON_EVENT_NAME_MISSING
                (rejReasonStep "r_inv" REJECTED_REASON_REQUIRED_ARGUMENT_MISSING
                  (rejReasonStep "r_inv" REJECTED_REASON_INVALID_CLIENT_MESSAGE_TYPE
                    (ext, reasonMap))))))))))

/-- Session, rollup and offline-storage fields of the snapshot projection
(MetaStats.cpp lines 374-418). -/
def snapSessionFields (sessionId : String) (sendIntervalSec : Nat)
    (rollupKind : RollUpKind) (now : Nat) (ts : TelemetryStats) :
    List (String × String) :=
  let e0 : List (String × String) := propSet "act_stats_id" sessionId []
  let e1 := insertNonZero e0 "s_stime" ts.sessionStartTimestamp
  let e2 := insertNonZero e1 "stats_stime" ts.statsStartTimestamp
  let e3 := insertNonZero e2 "s_Firststime" ts.session_startup_time_in_millisec
  let e4 := insertNonZero e3 "stats_etime" now
  let e5 := propSet "stats_rollup_kind" (RollUpKindToString rollupKind) e4
  let e6 := insertNonZero e5 "st_freq" sendIntervalSec
  if ts.offlineStorageEnabled then
    let storageStats := ts.offlineStorageStats
    let e7 := propSet "off_type" storageStats.storageFormat e6
    let e8 :=
      if storageStats.lastFailureReason ≠ "" then
        propSet "off_last_failure" storageStats.lastFailureReason e7
      else e7
    insertNonZero e8 "config_off_size" storageStats.fileSizeInBytes
  else e6

/-- Package-stats fields of the snapshot projection (MetaStats.cpp lines
420-447), including the retries distribution and the RTT block. -/
def snapPackageFields (ts : TelemetryStats) (ext : List (String × String)) :
    List (String × String) :=
  let packageStats := ts.packageStats
  let e1 := insertNonZero ext "rqs_not_to_be_acked" packageStats.totalPkgsNotToBeAcked
  let e2 := insertNonZero e1 "rqs_to_be_acked" packageStats.totalPkgsToBeAcked
  let e3 := insertNonZero e2 "rqs_acked" packageStats.totalPkgsAcked
  let e4 := insertNonZero e3 "rqs_acked_succ" packageStats.successPkgsAcked
  let e5 := insertNonZero e4 "rqs_acked_ret" packageStats.retryPkgsAcked
  let e6 := insertNonZero e5 "rqs_acked_drp" packageStats.dropPkgsAcked
  let e7 := addCountsPerHttpReturnCodeToRecordFields e6 "rqs_acked_drp_on_HTTP"
    packageStats.dropPkgsPerHttpReturnCode
  let e8 := addCountsPerHttpReturnCodeToRecordFields e7 "rqs_acked_ret_on_HTTP"
    packageStats.retryPkgsPerHttpReturnCode
  let e9 := insertNonZero e8 "rm_bw_bytes_consumed_count" packageStats.totalBandwidthConsumedInBytes
  let e10 :=
    if packageStats.totalPkgsAcked > 0 then
      addAggregatedMapToRecordFields e9 "rqs_fail_on_HTTP_retries_count_distribution"
        ts.retriesCountDistribution false
    else e9
  if packageStats.successPkgsAcked > 0 then
    let rttStats := ts.rttStats
    let e11 := insertNonZero e10 "rtt_millisec_max" rttStats.maxOfLatencyInMilliSecs
    let e12 := insertNonZero e11 "rtt_millisec_min" rttStats.minOfLatencyInMilliSecs
    addAggregatedMapToRecordFields e12 "rtt_millisec_distribution" rttStats.latencyDistribution
  else e10

/-- Record-stats fields of the snapshot projection (MetaStats.cpp lines
449-479); returns the extension map together with the mutated rejected- and
dropped-reason maps (the operator[] accesses default-insert their keys). -/
def snapRecordFields (recordStats : RecordStats) (ext : List (String × String)) :
    List (String × String) × Dist × Dist :=
  let e1 := insertNonZero ext "r_ban" recordStats.bannedCount
  let e2 := insertNonZero e1 "rcv" recordStats.receivedCount
  let e3 := insertNonZero e2 "snt" recordStats.sentCount
  let e4 := insertNonZero e3 "rcds_sent_curr_session" recordStats.sentCountFromCurrentSession
  let e5 := insertNonZero e4 "rcds_sent_prev_session" recordStats.sentCountFromPreviousSession
  let e6 := insertNonZero e5 "rej" recordStats.rejectedCount
  let rejPair := addRecordsPerRejectedReasonToRecordFields e6
    recordStats.rejectedCountReasonDistribution
  let e7 := insertNonZero rejPair.1 "drp" recordStats.droppedCount
  let e8 := insertNonZero e7 "d_disk_full" recordStats.overflownCount
  let dMap := distTouch DROPPED_REASON_OFFLINE_STORAGE_SAVE_FAILED
    recordStats.droppedCountReasonDistribution
  let e9 := insertNonZero e8 "d_io_fail"
    (distGetD DROPPED_REASON_OFFLINE_STORAGE_SAVE_FAILED dMap)
  let dMap2 := distTouch DROPPED_REASON_RETRY_EXCEEDED dMap
  let e10 := insertNonZero e9 "d_retry_lmt" (distGetD DROPPED_REASON_RETRY_EXCEEDED dMap2)
  let e11 := addCountsPerHttpReturnCodeToRecordFields e10 "rcds_drp_on_HTTP"
    recordStats.droppedCountPerHttpReturnCode
  let e12 := addAggregatedStrMapToRecordFields e11 "exceptions_per_eventtype_count"
    recordStats.semanticToExceptionCountMap
  let e13 := addAggregatedStrMapToRecordFields e12 "rcds_per_eventtype_count"
    recordStats.semanticToRecordCountMap
  let e14 :=
    if recordStats.receivedCount > 0 then
      let f1 := insertNonZero e13 "rcd_size_bytes_max" recordStats.maxOfRecordSizeInBytes
      let f2 := insertNonZero f1 "rcd_size_bytes_min" recordStats.minOfRecordSizeInBytes
      let f3 := insertNonZero f2 "rcds_received_size_bytes" recordStats.totalRecordsSizeInBytes
      addAggregatedMapToRecordFields f3 "rcd_size_kb_distribution"
        recordStats.sizeInKBytesDistribution
    else e13
  (e14, rejPair.2, dMap2)

/-- One per-priority block of the snapshot projection (MetaStats.cpp lines
481-565).  The plain insertNonZero lines of a block are passed as an ordered
list of output key and value-of-row pairs, so that each block keeps exactly
the keys and values the source writes, including the typos of the RealTime
and Max blocks.  The block touches the per-latency row through operator[]
first, then reads it, and touches the log-to-send latency map only when the
row's sent count is non-zero. -/
def snapPrioBlock (lat : Int) (inserts : List (String × (RecordStats → Nat)))
    (rcvSizeKey logMaxKey logMinKey logDistKey : String)
    (st : List (String × String) × List (Int × RecordStats) × List (Int × LatencyStats)) :
    List (String × String) × List (Int × RecordStats) × List (Int × LatencyStats) :=
  let perLat := alistTouch {} lat st.2.1
  let r := alistGetD {} lat perLat
  let e8 := inserts.foldl (fun e p => insertNonZero e p.1 (p.2 r)) st.1
  let e9 :=
    if r.receivedCount > 0 then insertNonZero e8 rcvSizeKey r.totalRecordsSizeInBytes
    else e8
  if r.sentCount > 0 then
    let logLat := alistTouch {} lat st.2.2
    let ls := alistGetD {} lat logLat
    let f1 := insertNonZero e9 logMaxKey ls.maxOfLatencyInMilliSecs
    let f2 := insertNonZero f1 logMinKey ls.minOfLatencyInMilliSecs
    (addAggregatedMapToRecordFields f2 logDistKey ls.latencyDistribution, perLat, logLat)
  else (e9, perLat, st.2.2)

/-- Embedding of MetaStats::privateSnapStatsToRecord (MetaStats.cpp line
370).  The function both produces the projected record and mutates the row it
projects (through the non-const operator[] accesses on its reason maps and
per-latency maps); the result pairs the record with the mutated row.  The
single parameter now stands for the clock read of the call. -/
def privateSnapStatsToRecord (sessionId statsTenantToken : String)
    (sendIntervalSec : Nat) (rollupKind : RollUpKind) (now : Nat)
    (telemetryStats : TelemetryStats) : AriaRecord × TelemetryStats :=
  let e1 := snapSessionFields sessionId sendIntervalSec rollupKind now telemetryStats
  let e2 := snapPackageFields telemetryStats e1
  let rfs := snapRecordFields telemetryStats.recordStats e2
  let st0 := (rfs.1, telemetryStats.recordStatsPerLatency,
    telemetryStats.logToSuccessfulSendLatencyPerLatency)
  let st1 := snapPrioBlock EventLatency_Normal
    [("ln_r_ban", fun r => r.bannedCount), ("ln_rcv", fun r => r.receivedCount),
     ("ln_snt", fun r => r.sentCount),
     ("ln_rcds_sent_count_current_session", fun r => r.sentCountFromCurrentSession),
     ("ln_rcds_sent_count_previous_sessions", fun r => r.sentCountFromPreviousSession),
     ("ln_drp", fun r => r.droppedCount), ("ln_d_disk_full", fun r => r.overflownCount),
     ("ln_rej", fun r => r.rejectedCount)]
    "ln_rcds_received_size_bytes"
    "ln_log_to_successful_send_latency_millisec_max"
    "n_log_to_successful_send_latency_millisec_min"
    "ln_log_to_successful_send_latency_millisec_distribution" st0
  let st2 := snapPrioBlock EventLatency_CostDeferred
    [("ld_r_ban", fun r => r.bannedCount), ("ld_rcv", fun r => r.receivedCount),
     ("ld_snt", fun r => r.sentCount),
     ("ld_rcds_sent_count_current_session", fun r => r.sentCountFromCurrentSession),
     ("ld_rcds_sent_count_previous_sessions", fun r => r.sentCountFromPreviousSession),
     ("ld_drp", fun r => r.droppedCount), ("ld_d_disk_full", fun r => r.overflownCount),
     ("ld_rej", fun r => r.rejectedCount)]
    "ld_rcds_received_size_bytes"
    "ld_log_to_successful_send_latency_millisec_max"
    "ld_log_to_successful_send_latency_millisec_min"
    "ld_log_to_successful_send_latency_millisec_distribution" st1
  let normalPriorityOverflown := (alistGetD {} EventLatency_CostDeferred st2.2.1 :
    RecordStats).overflownCount
  let st3 := snapPrioBlock EventLatency_RealTime
    [("lr_r_ban", fun r => r.bannedCount), ("lr_rcv", fun r => r.receivedCount),
     ("lr_snt", fun r => r.sentCount),
     ("lr_rcds_sent_count_current_session", fun r => r.sentCountFromCurrentSession),
     ("lr_rcds_sent_count_previous_sessions", fun r => r.sentCountFromPreviousSession),
     ("lr_drp", fun r => r.droppedCount), ("ld_d_disk_full", fun _ => normalPriorityOverflown),
     ("lr_rej", fun r => r.rejectedCount)]
    "lr_rcds_received_size_bytes"
    "lr_log_to_successful_send_latency_millisec_max"
    "lr_log_to_successful_send_latency_millisec_min"
    "lr_log_to_successful_send_latency_millisec_distribution" st2
  let st4 := snapPrioBlock EventLatency_Max
    [("lm_r_ban", fun r => r.bannedCount), ("lm_rcv", fun r => r.receivedCount),
     ("lm_snt", fun r => r.sentCount),
     ("lm_rcds_sent_count_current_session", fun r => r.sentCountFromCurrentSession),
     ("lm_rcds_sent_count_previous_sessions", fun r => r.sentCountFromPreviousSession),
     ("lm_drp", fun r => r.droppedCount), ("lm_snt", fun r => r.rejectedCount)]
    "lm_rcds_received_size_bytes"
    "lm_log_to_successful_send_latency_millisec_max"
    "lm_log_to_successful_send_latency_millisec_min"
    "lm_log_to_successful_send_latency_millisec_distribution" st3
  let record : AriaRecord :=
    { iKey := "o:" ++ tenantIdOf statsTenantToken, name := "act_stats",
      baseType := "act_stats", props := st4.1 }
  let ts :=
    { telemetryStats with
      recordStats :=
        { telemetryStats.recordStats with
          rejectedCountReasonDistribution := rfs.2.1,
          droppedCountReasonDistribution := rfs.2.2 },
      recordStatsPerLatency := st4.2.1,
      logToSuccessfulSendLatencyPerLatency := st4.2.2 }
  (record, ts)

/-- Modelled from the spec: PackageStats::Reset of the missing header zeroes
the scalar batch counters; the per-HTTP-code maps are handled separately by
resetStats itself (MetaStats.cpp lines 341-342), so Reset leaves them. -/
def packageStatsReset (p : PackageStats) : PackageStats :=
  { p with
    totalPkgsNotToBeAcked := 0
    totalPkgsToBeAcked := 0
    totalMetastatsOnlyPkgsToBeAcked := 0
    totalPkgsAcked := 0
    totalMetastatsOnlyPkgsAcked := 0
    successPkgsAcked := 0
    retryPkgsAcked := 0
    dropPkgsAcked := 0
    totalBandwidthConsumedInBytes := 0 }

/-- Modelled from the spec: LatencyStats::Reset of the missing header puts
min back to the maximum representable value and max to 0; the distribution is
handled separately by resetStats (line 346). -/
def latencyStatsReset (l : LatencyStats) : LatencyStats :=
  { l with maxOfLatencyInMilliSecs := 0, minOfLatencyInMilliSecs := UINT_MAX }

/-- Modelled from the spec: RecordStats::Reset of the missing header zeroes
the scalar counters and size aggregates (min back to the maximum
representable value); the maps are handled separately by resetStats (lines
350-354), so Reset leaves them. -/
def recordStatsReset (r : RecordStats) : RecordStats :=
  { r with
    bannedCount := 0
    receivedCount := 0
    receivedMetastatsCount := 0
    sentCount := 0
    sentCountFromCurrentSession := 0
    sentCountFromPreviousSession := 0
    droppedCount := 0
    overflownCount := 0
    rejectedCount := 0
    maxOfRecordSizeInBytes := 0
    minOfRecordSizeInBytes := UINT_MAX
    totalRecordsSizeInBytes := 0 }

/-- Modelled from the spec: OfflineStorageStats::Reset of the missing header
zeroes the file size counter; the strings and the size histograms are handled
elsewhere (lines 356-359). -/
def offlineStorageStatsReset (o : OfflineStorageStats) : OfflineStorageStats :=
  { o with fileSizeInBytes := 0 }

/-- Per-row body of MetaStats::resetStats (MetaStats.cpp lines 285-361): the
unconditional Reset calls and map clears, the stats-start refresh and session
propagation, then the start or non-start branch. -/
def resetRow (start : Bool) (now : Nat) (sid : String) (cfg : StatsConfig)
    (row : TelemetryStats) : TelemetryStats :=
  let perLatReset := row.recordStatsPerLatency.map (fun p => (p.1, recordStatsReset p.2))
  let ts : TelemetryStats :=
    { row with
      packageStats := packageStatsReset row.packageStats
      rttStats := latencyStatsReset row.rttStats
      logToSuccessfulSendLatencyPerLatency := []
      recordStats := recordStatsReset row.recordStats
      recordStatsPerLatency := perLatReset
      offlineStorageStats := offlineStorageStatsReset row.offlineStorageStats
      statsStartTimestamp := now
      sessionId := sid }
  if start then
    let rttInit := initDistributionKeys cfg.rtt_first_duration_in_millisecs
      cfg.rtt_next_factor cfg.rtt_total_spots
    let latInit := initDistributionKeys cfg.latency_first_duration_in_millisecs
      cfg.latency_next_factor cfg.latency_total_spots
    let sizeInit := initDistributionKeys cfg.record_size_first_in_kb
      cfg.record_size_next_factor cfg.record_size_total_spots
    let storageInit := initDistributionKeys cfg.storage_size_first_in_kb
      cfg.storage_size_next_factor cfg.storage_size_total_spots
    let logInit := ts.logToSuccessfulSendLatencyPerLatency.map
      (fun p => (p.1, { p.2 with latencyDistribution := latInit }))
    let storage :=
      if ts.offlineStorageEnabled then
        { ts.offlineStorageStats with
          saveSizeInKBytesDistribution := storageInit
          overwrittenSizeInKBytesDistribution := storageInit }
      else ts.offlineStorageStats
    { ts with
      statsSequenceNum := 0
      sessionStartTimestamp := now
      rttStats := { ts.rttStats with latencyDistribution := rttInit }
      logToSuccessfulSendLatencyPerLatency := logInit
      recordStats := { ts.recordStats with sizeInKBytesDistribution := sizeInit }
      offlineStorageStats := storage }
  else
    let rs :=
      { ts.recordStats with
        semanticToRecordCountMap := sdistClearValues ts.recordStats.semanticToRecordCountMap
        semanticToExceptionCountMap := sdistClearValues ts.recordStats.semanticToExceptionCountMap
        sizeInKBytesDistribution := distClearValues ts.recordStats.sizeInKBytesDistribution
        droppedCountPerHttpReturnCode := [] }
    let storage :=
      if ts.offlineStorageEnabled then
        { ts.offlineStorageStats with
          saveSizeInKBytesDistribution :=
            distClearValues ts.offlineStorageStats.saveSizeInKBytesDistribution
          overwrittenSizeInKBytesDistribution :=
            distClearValues ts.offlineStorageStats.overwrittenSizeInKBytesDistribution }
      else ts.offlineStorageStats
    { ts with
      statsSequenceNum := (ts.statsSequenceNum + 1) % U32
      packageStats :=
        { ts.packageStats with
          dropPkgsPerHttpReturnCode := []
          retryPkgsPerHttpReturnCode := [] }
      retriesCountDistribution := []
      rttStats :=
        { ts.rttStats with
          latencyDistribution := distClearValues ts.rttStats.latencyDistribution }
      logToSuccessfulSendLatencyPerLatency := []
      recordStats := rs
      offlineStorageStats := storage }

/-- Embedding of MetaStats::resetStats (MetaStats.cpp line 282): apply the
per-row reset to every tenant row; the global row is not touched. -/
def resetStats (s : MetaStatsState) (start : Bool) (now : Nat) : MetaStatsState :=
  let rows := s.m_telemetryTenantStats.map
    (fun p => (p.1, resetRow start now s.m_sessionId s.m_statsConfig p.2))
  { s with m_telemetryTenantStats := rows }

/-- Embedding of MetaStats::privateClearStats (MetaStats.cpp line 596): empty
the listed maps of one row; the reason maps and the per-latency RecordStats
map are not among them. -/
def privateClearStats (ts : TelemetryStats) : TelemetryStats :=
  { ts with
    packageStats := { ts.packageStats with
      dropPkgsPerHttpReturnCode := [], retryPkgsPerHttpReturnCode := [] },
    retriesCountDistribution := [],
    rttStats := { ts.rttStats with latencyDistribution := [] },
    logToSuccessfulSendLatencyPerLatency := [],
    recordStats := { ts.recordStats with
      sizeInKBytesDistribution := [],
      semanticToRecordCountMap := [],
      semanticToExceptionCountMap := [],
      droppedCountPerHttpReturnCode := [] },
    offlineStorageStats := { ts.offlineStorageStats with
      saveSizeInKBytesDistribution := [],
      overwrittenSizeInKBytesDistribution := [] } }

/-- Embedding of MetaStats::clearStats (MetaStats.cpp line 621): clear every
tenant row and the global row; the tenant map keeps its entries. -/
def clearStats (s : MetaStatsState) : MetaStatsState :=
  { s with
    m_telemetryTenantStats := s.m_telemetryTenantStats.map
      (fun p => (p.1, privateClearStats p.2)),
    m_telemetryStats := privateClearStats s.m_telemetryStats }

/-- Accumulation loop of hasStatsDataAvailable (MetaStats.cpp lines 646-653):
the four unsigned accumulators, each addition and the inner unsigned
subtraction wrapping modulo 2^32. -/
def statsAvailLoop :
    List (String × TelemetryStats) → Nat × Nat × Nat × Nat → Nat × Nat × Nat × Nat
  | [], acc => acc
  | (_, ts) :: rest, (rj, bn, dp, rc) =>
      statsAvailLoop rest
        ((rj + ts.recordStats.rejectedCount) % U32,
         (bn + ts.recordStats.bannedCount) % U32,
         (dp + ts.recordStats.droppedCount) % U32,
         (rc + usub ts.recordStats.receivedCount ts.recordStats.receivedMetastatsCount) % U32)

/-- Embedding of MetaStats::hasStatsDataAvailable (MetaStats.cpp line 639). -/
def hasStatsDataAvailable (s : MetaStatsState) : Bool :=
  let acc := statsAvailLoop s.m_telemetryTenantStats (0, 0, 0, 0)
  decide (0 < acc.1) || decide (0 < acc.2.1) || decide (0 < acc.2.2.1) ||
  decide (0 < acc.2.2.2) ||
  decide (s.m_telemetryStats.packageStats.totalMetastatsOnlyPkgsAcked <
    s.m_telemetryStats.packageStats.totalPkgsAcked) ||
  decide (s.m_telemetryStats.packageStats.totalMetastatsOnlyPkgsToBeAcked <
    s.m_telemetryStats.packageStats.totalPkgsToBeAcked)

/-- Tenant loop of MetaStats::snapStatsToRecord (MetaStats.cpp lines
578-582): project every tenant row in map order, collecting the records and
the mutated rows. -/
def snapLoop (sid statsToken : String) (freq : Nat) (kind : RollUpKind) (now : Nat) :
    List (String × TelemetryStats) → List AriaRecord × List (String × TelemetryStats)
  | [] => ([], [])
  | (tok, ts) :: rest =>
      let pr := privateSnapStatsToRecord sid statsToken freq kind now ts
      let tl := snapLoop sid statsToken freq kind now rest
      (pr.1 :: tl.1, (tok, pr.2) :: tl.2)

/-- Embedding of MetaStats::snapStatsToRecord (MetaStats.cpp line 574):
project every tenant row; for non-Ongoing rollups also set the global row's
tenant id from the configured stats token and project the global row. -/
def snapStatsToRecord (s : MetaStatsState) (kind : RollUpKind) (now : Nat) :
    List AriaRecord × MetaStatsState :=
  let pr := snapLoop s.m_sessionId s.metaStatsTenantToken s.metaStatsSendIntervalSec
    kind now s.m_telemetryTenantStats
  let s₁ := { s with m_telemetryTenantStats := pr.2 }
  if kind ≠ ACT_STATS_ROLLUP_KIND_ONGOING then
    let g := { s₁.m_telemetryStats with tenantId := tenantIdOf s₁.metaStatsTenantToken }
    let gr := privateSnapStatsToRecord s₁.m_sessionId s₁.metaStatsTenantToken
      s₁.metaStatsSendIntervalSec kind now g
    (pr.1 ++ [gr.1], { s₁ with m_telemetryStats := gr.2 })
  else (pr.1, s₁)

/-- Embedding of MetaStats::generateStatsEvent (MetaStats.cpp line 667): when
stats data is available or the rollup is not Ongoing, snapshot and then reset
with start = false; a Stop rollup additionally clears; the produced records
are returned. -/
def generateStatsEvent (s : MetaStatsState) (rollupKind : RollUpKind) (now : Nat) :
    List AriaRecord × MetaStatsState :=
  let st :=
    if hasStatsDataAvailable s ∨ rollupKind ≠ ACT_STATS_ROLLUP_KIND_ONGOING then
      let pr := snapStatsToRecord s rollupKind now
      (pr.1, resetStats pr.2 false now)
    else ([], s)
  if rollupKind = ACT_STATS_ROLLUP_KIND_STOP then (st.1, clearStats st.2) else st

/-- Embedding of MetaStats::updateOnPostData (MetaStats.cpp line 742): global
only; add to the bandwidth counter, increment the to-be-acked counter, and
the metastats-only to-be-acked counter when applicable. -/
def updateOnPostData (s : MetaStatsState) (postDataLength : Nat) (metastatsOnly : Bool) :
    MetaStatsState :=
  let p := s.m_telemetryStats.packageStats
  let p₁ := { p with
    totalBandwidthConsumedInBytes := (p.totalBandwidthConsumedInBytes + postDataLength) % U32,
    totalPkgsToBeAcked := (p.totalPkgsToBeAcked + 1) % U32 }
  let p₂ :=
    if metastatsOnly then
      { p₁ with totalMetastatsOnlyPkgsToBeAcked := (p₁.totalMetastatsOnlyPkgsToBeAcked + 1) % U32 }
    else p₁
  { s with m_telemetryStats := { s.m_telemetryStats with packageStats := p₂ } }

/-- Per-tenant update of updateOnRecordsRejected (MetaStats.cpp lines
929-931): add the (unsigned-truncated) count to the tenant row's per-reason
map and rejected counter. -/
def rejectRow (reason cnt : Nat) (ts : TelemetryStats) : TelemetryStats :=
  { ts with recordStats := { ts.recordStats with
      rejectedCountReasonDistribution := distIdx reason (fun c => (c + cnt % U32) % U32)
        ts.recordStats.rejectedCountReasonDistribution,
      rejectedCount := (ts.recordStats.rejectedCount + cnt % U32) % U32 } }

/-- Tenant loop of updateOnRecordsRejected (MetaStats.cpp lines 927-933):
operator[] lazily creates each tenant row, both its counters are bumped, and
the int accumulator overallCount collects the truncated counts. -/
def rejectLoop (reason : Nat) :
    List (String × Nat) → List (String × TelemetryStats) → Nat →
    List (String × TelemetryStats) × Nat
  | [], m, overall => (m, overall)
  | (tok, cnt) :: rest, m, overall =>
      rejectLoop reason rest (alistIdx {} tok (rejectRow reason cnt) m)
        (overall + cnt % U32)

/-- Embedding of MetaStats::updateOnRecordsRejected (MetaStats.cpp line 924):
fan the counts out to the tenant rows, then add the overall count to the
global row's per-reason map only (the global rejected counter is not
touched). -/
def updateOnRecordsRejected (s : MetaStatsState) (reason : Nat)
    (rejectedCount : List (String × Nat)) : MetaStatsState :=
  let pr := rejectLoop reason rejectedCount s.m_telemetryTenantStats 0
  { s with
    m_telemetryTenantStats := pr.1,
    m_telemetryStats := { s.m_telemetryStats with
      recordStats := { s.m_telemetryStats.recordStats with
        rejectedCountReasonDistribution := distIdx reason (fun c => (c + pr.2) % U32)
          s.m_telemetryStats.recordStats.rejectedCountReasonDistribution } } }

/-- Embedding of the MetaStats constructor (MetaStats.cpp line 259): stamp
the global row's start and startup times, reset with start = true (a no-op on
the still-empty tenant map), enable offline storage, and store the generated
session UUID. -/
def metaStatsInit (cfg : StatsConfig) (statsToken : String) (freq : Nat)
    (now : Nat) (uuid : String) : MetaStatsState :=
  let s : MetaStatsState :=
    { m_statsConfig := cfg, metaStatsTenantToken := statsToken,
      metaStatsSendIntervalSec := freq,
      m_telemetryStats :=
        { statsStartTimestamp := now, session_startup_time_in_millisec := now } }
  let s₁ := resetStats s true now
  let s₂ := { s₁ with m_telemetryStats := { s₁.m_telemetryStats with
    offlineStorageEnabled := true, resourceManagerEnabled := false,
    ecsClientEnabled := false } }
  { s₂ with m_sessionId := uuid }

/-!
Specification-side definitions: comparison forms stated in the words of the
specification, property predicates, and the concrete states used by
counterexamples and witnesses.
-/

/-- Increment (with the unsigned wrap of the source) of the count stored at
one key, leaving every other entry alone; the specification's notion of
observing one value into its bucket. -/
def bumpAt (K : Nat) (d : Dist) : Dist :=
  d.map (fun p => if p.1 = K then (p.1, (p.2 + 1) % U32) else p)

/-- Comma-separated concatenation, as the specification describes the
serialized distribution. -/
def commaSeparated : List String → String
  | [] => ""
  | [x] => x
  | x :: y :: rest => x ++ "," ++ commaSeparated (y :: rest)

/-- Specification form of the range-mode pieces: interior buckets render as
lower-next:count, the trailing bucket as a greater-than marker. -/
def rangePieces : Dist → List String
  | [] => []
  | [(k, v)] => [">" ++ toString k ++ ":" ++ toString v]
  | (k, v) :: (k₂, v₂) :: rest =>
      (toString k ++ "-" ++ toString k₂ ++ ":" ++ toString v) :: rangePieces ((k₂, v₂) :: rest)

/-- Specification form of the point-mode pieces: every bucket renders as
key:count. -/
def pointPieces (d : Dist) : List String :=
  d.map (fun p => toString p.1 ++ ":" ++ toString p.2)

/-- Sum of one per-row quantity over the tenant map. -/
def sumOverTenants (f : TelemetryStats → Nat) (l : List (String × TelemetryStats)) : Nat :=
  (l.map (fun p => f p.2)).sum

/-- Maps of a row that clearStats empties (the reason maps and the
per-latency RecordStats map are not among them). -/
def RowCleared (t : TelemetryStats) : Prop :=
  t.packageStats.dropPkgsPerHttpReturnCode = [] ∧
  t.packageStats.retryPkgsPerHttpReturnCode = [] ∧
  t.retriesCountDistribution = [] ∧
  t.rttStats.latencyDistribution = [] ∧
  t.logToSuccessfulSendLatencyPerLatency = [] ∧
  t.recordStats.sizeInKBytesDistribution = [] ∧
  t.recordStats.semanticToRecordCountMap = [] ∧
  t.recordStats.semanticToExceptionCountMap = [] ∧
  t.recordStats.droppedCountPerHttpReturnCode = [] ∧
  t.offlineStorageStats.saveSizeInKBytesDistribution = [] ∧
  t.offlineStorageStats.overwrittenSizeInKBytesDistribution = []

/-- All non-key counter state of a row is zero: the scalar counters of the
record, package, latency and storage statistics (including each per-latency
row), and every stored histogram value; the key sets of the retained maps are
not constrained. -/
def NonKeyCountersZero (t : TelemetryStats) : Prop :=
  t.recordStats.bannedCount = 0 ∧
  t.recordStats.receivedCount = 0 ∧
  t.recordStats.receivedMetastatsCount = 0 ∧
  t.recordStats.sentCount = 0 ∧
  t.recordStats.sentCountFromCurrentSession = 0 ∧
  t.recordStats.sentCountFromPreviousSession = 0 ∧
  t.recordStats.droppedCount = 0 ∧
  t.recordStats.overflownCount = 0 ∧
  t.recordStats.rejectedCount = 0 ∧
  t.recordStats.totalRecordsSizeInBytes = 0 ∧
  (∀ p ∈ t.recordStats.sizeInKBytesDistribution, p.2 = 0) ∧
  t.packageStats.totalPkgsNotToBeAcked = 0 ∧
  t.packageStats.totalPkgsToBeAcked = 0 ∧
  t.packageStats.totalMetastatsOnlyPkgsToBeAcked = 0 ∧
  t.packageStats.totalPkgsAcked = 0 ∧
  t.packageStats.totalMetastatsOnlyPkgsAcked = 0 ∧
  t.packageStats.successPkgsAcked = 0 ∧
  t.packageStats.retryPkgsAcked = 0 ∧
  t.packageStats.dropPkgsAcked = 0 ∧
  t.packageStats.totalBandwidthConsumedInBytes = 0 ∧
  t.retriesCountDistribution = [] ∧
  t.rttStats.maxOfLatencyInMilliSecs = 0 ∧
  (∀ p ∈ t.rttStats.latencyDistribution, p.2 = 0) ∧
  t.offlineStorageStats.fileSizeInBytes = 0 ∧
  (∀ q ∈ t.recordStatsPerLatency, q.2.receivedCount = 0 ∧ q.2.sentCount = 0 ∧
    q.2.droppedCount = 0 ∧ q.2.rejectedCount = 0 ∧ q.2.bannedCount = 0 ∧
    q.2.overflownCount = 0 ∧ q.2.totalRecordsSizeInBytes = 0) ∧
  t.recordStats.droppedCountPerHttpReturnCode = [] ∧
  (∀ p ∈ t.recordStats.semanticToRecordCountMap, p.2 = 0) ∧
  (∀ p ∈ t.recordStats.semanticToExceptionCountMap, p.2 = 0) ∧
  t.packageStats.dropPkgsPerHttpReturnCode = [] ∧
  t.packageStats.retryPkgsPerHttpReturnCode = [] ∧
  t.logToSuccessfulSendLatencyPerLatency = []

/-- Concrete tenant row used by counterexamples and witnesses: a row that has
seen three events, one rejection, and five previous rollups. -/
def exampleRow : TelemetryStats :=
  { statsSequenceNum := 5
    sessionStartTimestamp := 3
    recordStats := { receivedCount := 3, rejectedCount := 1 } }

/-- Concrete engine state with one tenant row. -/
def exampleState : MetaStatsState :=
  { m_telemetryTenantStats := [("t-x", exampleRow)]
    m_sessionId := "sid"
    metaStatsTenantToken := "mst-abc" }

/-- Frame of the snapshot projection: every piece of the row other than the
two reason maps and the two per-latency maps is unchanged between the input
row t and the projected row u (scalars, package and RTT statistics, the
retries histogram, the offline storage statistics, and every record-stats
field the projection only reads). -/
def projectionFramePreserved (t u : TelemetryStats) : Prop :=
  u.tenantId = t.tenantId ∧
  u.sessionId = t.sessionId ∧
  u.sessionStartTimestamp = t.sessionStartTimestamp ∧
  u.session_startup_time_in_millisec = t.session_startup_time_in_millisec ∧
  u.statsStartTimestamp = t.statsStartTimestamp ∧
  u.statsSequenceNum = t.statsSequenceNum ∧
  u.offlineStorageEnabled = t.offlineStorageEnabled ∧
  u.resourceManagerEnabled = t.resourceManagerEnabled ∧
  u.ecsClientEnabled = t.ecsClientEnabled ∧
  u.packageStats = t.packageStats ∧
  u.retriesCountDistribution = t.retriesCountDistribution ∧
  u.rttStats = t.rttStats ∧
  u.offlineStorageStats = t.offlineStorageStats ∧
  u.recordStats.bannedCount = t.recordStats.bannedCount ∧
  u.recordStats.receivedCount = t.recordStats.receivedCount ∧
  u.recordStats.receivedMetastatsCount = t.recordStats.receivedMetastatsCount ∧
  u.recordStats.sentCount = t.recordStats.sentCount ∧
  u.recordStats.sentCountFromCurrentSession
    = t.recordStats.sentCountFromCurrentSession ∧
  u.recordStats.sentCountFromPreviousSession
    = t.recordStats.sentCountFromPreviousSession ∧
  u.recordStats.droppedCount = t.recordStats.droppedCount ∧
  u.recordStats.overflownCount = t.recordStats.overflownCount ∧
  u.recordStats.rejectedCount = t.recordStats.rejectedCount ∧
  u.recordStats.maxOfRecordSizeInBytes = t.recordStats.maxOfRecordSizeInBytes ∧
  u.recordStats.minOfRecordSizeInBytes = t.recordStats.minOfRecordSizeInBytes ∧
  u.recordStats.totalRecordsSizeInBytes = t.recordStats.totalRecordsSizeInBytes ∧
  u.recordStats.droppedCountPerHttpReturnCode
    = t.recordStats.droppedCountPerHttpReturnCode ∧
  u.recordStats.sizeInKBytesDistribution = t.recordStats.sizeInKBytesDistribution ∧
  u.recordStats.semanticToRecordCountMap = t.recordStats.semanticToRecordCountMap ∧
  u.recordStats.semanticToExceptionCountMap
    = t.recordStats.semanticToExceptionCountMap

/-!
Theorems.  Support lemmas come first, then one theorem per claim (with its
counterexample and witness where applicable).
-/

theorem distSorted_tail {p : Nat × Nat} {l : Dist} (h : DistSorted (p :: l)) :
    DistSorted l := by
  cases l with
  | nil => trivial
  | cons q tl =>
      obtain ⟨k₁, v₁⟩ := p
      obtain ⟨k₂, v₂⟩ := q
      exact h.2

theorem distSorted_head_lt {k v : Nat} {l : Dist} (h : DistSorted ((k, v) :: l)) :
    ∀ kp ∈ distKeys l, k < kp := by
  induction l generalizing k v with
  | nil => intro kp hkp; simp [distKeys] at hkp
  | cons q tl ih =>
      intro kp hkp
      obtain ⟨k₁, v₁⟩ := q
      simp only [distKeys, List.map_cons, List.mem_cons] at hkp
      rcases hkp with rfl | hkp
      · exact h.1
      · exact Nat.lt_trans h.1 (ih h.2 kp (by simpa [distKeys] using hkp))

theorem bumpAt_not_mem {K : Nat} {d : Dist} (h : K ∉ distKeys d) :
    bumpAt K d = d := by
  induction d with
  | nil => rfl
  | cons p tl ih =>
      simp only [distKeys, List.map_cons, List.mem_cons, not_or] at h
      have h1 : ¬ p.1 = K := fun hh => h.1 hh.symm
      simp only [bumpAt, List.map_cons, if_neg h1]
      show p :: List.map _ tl = p :: tl
      rw [show List.map _ tl = bumpAt K tl from rfl, ih (by simpa [distKeys] using h.2)]

/-- Claim C9: after construction followed only by on_post_data(2048,
metastats_only = true), an Ongoing rollup returns the empty record list and
leaves the state untouched, and has_stats_data_available is false. -/
theorem claim_C9 (cfg : StatsConfig) (statsToken uuid : String) (freq t₀ t₁ : Nat) :
    hasStatsDataAvailable
      (updateOnPostData (metaStatsInit cfg statsToken freq t₀ uuid) 2048 true) = false ∧
    generateStatsEvent
      (updateOnPostData (metaStatsInit cfg statsToken freq t₀ uuid) 2048 true)
      ACT_STATS_ROLLUP_KIND_ONGOING t₁
      = ([], updateOnPostData (metaStatsInit cfg statsToken freq t₀ uuid) 2048 true) :=
  ⟨rfl, rfl⟩

/-- Claim C7: on a non-empty distribution with strictly increasing keys, the
serialization loop yields the comma-separated interior pieces followed by the
trailing piece in range mode, and the comma-separated key:count pieces in
point mode. -/
theorem claim_C7 (d : Dist) (hne : d ≠ []) (_hs : DistSorted d) :
    serializeUintDist true d = commaSeparated (rangePieces d) ∧
    serializeUintDist false d = commaSeparated (pointPieces d) := by
  clear _hs
  induction d with
  | nil => exact absurd rfl hne
  | cons p tl ih =>
      obtain ⟨k, v⟩ := p
      cases tl with
      | nil => exact ⟨rfl, rfl⟩
      | cons q tl₂ =>
          obtain ⟨k₂, v₂⟩ := q
          obtain ⟨h₁, h₂⟩ := ih (by simp)
          constructor
          · show _ ++ serializeUintDist true ((k₂, v₂) :: tl₂) = _
            rw [h₁]
            rcases tl₂ with _ | ⟨r, tl₃⟩
            · rfl
            · simp [rangePieces, commaSeparated, String.append_assoc]
          · show _ ++ serializeUintDist false ((k₂, v₂) :: tl₂) = _
            rw [h₂]
            rcases tl₂ with _ | ⟨r, tl₃⟩
            · rfl
            · simp [pointPieces, commaSeparated, String.append_assoc]

/-- Claim C7 witness at a concrete three-bucket distribution. -/
theorem claim_C7_witness :
    serializeUintDist true [(1, 2), (2, 3), (3, 4)]
      = commaSeparated (rangePieces [(1, 2), (2, 3), (3, 4)]) ∧
    serializeUintDist false [(1, 2), (2, 3), (3, 4)]
      = commaSeparated (pointPieces [(1, 2), (2, 3), (3, 4)]) :=
  claim_C7 [(1, 2), (2, 3), (3, 4)] (by decide) (by decide)

theorem bumpAt_cons_self (k c : Nat) (tl : Dist) :
    bumpAt k ((k, c) :: tl) = (k, (c + 1) % U32) :: bumpAt k tl := by
  simp [bumpAt]

theorem bumpAt_cons_ne {k₀ k : Nat} (hne : ¬ k₀ = k) (c : Nat) (tl : Dist) :
    bumpAt k ((k₀, c) :: tl) = (k₀, c) :: bumpAt k tl := by
  simp [bumpAt, hne]

theorem updateMapGo_exists (v : Nat) (rest : Dist) :
    ∀ (k₀ c₀ : Nat), DistSorted ((k₀, c₀) :: rest) →
    ∃ k, k ∈ distKeys ((k₀, c₀) :: rest) ∧
      updateMapGo v (k₀, c₀) rest = bumpAt k ((k₀, c₀) :: rest) := by
  induction rest with
  | nil =>
      intro k₀ c₀ _
      exact ⟨k₀, by simp [distKeys], by simp [updateMapGo, bumpAt]⟩
  | cons q tl ih =>
      intro k₀ c₀ hs
      obtain ⟨k₁, c₁⟩ := q
      by_cases hv : v < k₁
      · refine ⟨k₀, by simp [distKeys], ?_⟩
        have hnot : k₀ ∉ distKeys ((k₁, c₁) :: tl) := by
          intro hmem
          exact absurd (distSorted_head_lt hs k₀ hmem) (Nat.lt_irrefl k₀)
        rw [bumpAt_cons_self, bumpAt_not_mem hnot]
        simp [updateMapGo, hv]
      · obtain ⟨k, hk, heq⟩ := ih k₁ c₁ (distSorted_tail hs)
        have hk₀k : k₀ < k := by
          have := distSorted_head_lt hs
          exact this k (by simpa [distKeys] using hk)
        refine ⟨k, by simp [distKeys] at hk ⊢; tauto, ?_⟩
        rw [bumpAt_cons_ne (Nat.ne_of_lt hk₀k)]
        simp [updateMapGo, hv, heq]

theorem updateMapGo_eq_max (v : Nat) (rest : Dist) :
    ∀ (k₀ c₀ : Nat), DistSorted ((k₀, c₀) :: rest) → k₀ ≤ v →
    ∀ k, k ∈ distKeys ((k₀, c₀) :: rest) → k ≤ v →
      (∀ kp ∈ distKeys ((k₀, c₀) :: rest), kp ≤ v → kp ≤ k) →
      updateMapGo v (k₀, c₀) rest = bumpAt k ((k₀, c₀) :: rest) := by
  induction rest with
  | nil =>
      intro k₀ c₀ _ _ k hk _ _
      have : k = k₀ := by simpa [distKeys] using hk
      subst this
      simp [updateMapGo, bumpAt]
  | cons q tl ih =>
      intro k₀ c₀ hs h₀ k hk hkv hmax
      obtain ⟨k₁, c₁⟩ := q
      by_cases hv : v < k₁
      · have hkk₀ : k = k₀ := by
          simp only [distKeys, List.map_cons, List.mem_cons] at hk
          rcases hk with rfl | hk
          · rfl
          · rcases hk with rfl | hk
            · exact absurd hkv (Nat.not_le_of_lt hv)
            · have h₁k : k₁ < k := distSorted_head_lt (distSorted_tail hs) k
                (by simpa [distKeys] using hk)
              exact absurd hkv (Nat.not_le_of_lt (Nat.lt_trans hv h₁k))
        subst hkk₀
        have hnot : k ∉ distKeys ((k₁, c₁) :: tl) := by
          intro hmem
          exact absurd (distSorted_head_lt hs k hmem) (Nat.lt_irrefl k)
        rw [bumpAt_cons_self, bumpAt_not_mem hnot]
        simp [updateMapGo, hv]
      · have h₁v : k₁ ≤ v := Nat.le_of_not_lt hv
        have hk₁k : k₁ ≤ k := hmax k₁ (by simp [distKeys]) h₁v
        have hk₀k : k₀ < k := Nat.lt_of_lt_of_le (hs.1) hk₁k
        have hkmem : k ∈ distKeys ((k₁, c₁) :: tl) := by
          simp only [distKeys, List.map_cons, List.mem_cons] at hk ⊢
          rcases hk with rfl | hk
          · exact absurd hk₀k (Nat.lt_irrefl k)
          · exact hk
        have heq := ih k₁ c₁ (distSorted_tail hs) h₁v k hkmem hkv
          (fun kp hkp hkpv => hmax kp (by simp [distKeys] at hkp ⊢; tauto) hkpv)
        rw [bumpAt_cons_ne (Nat.ne_of_lt hk₀k)]
        simp [updateMapGo, hv, heq]

theorem distTotal_bumpAt (d : Dist) (k : Nat) (hs : DistSorted d)
    (hk : k ∈ distKeys d) (hb : ∀ p ∈ d, p.2 + 1 < U32) :
    distTotal (bumpAt k d) = distTotal d + 1 := by
  induction d with
  | nil => simp [distKeys] at hk
  | cons p tl ih =>
      obtain ⟨k₀, c₀⟩ := p
      simp only [distKeys, List.map_cons, List.mem_cons] at hk
      rcases hk with rfl | hk
      · have hnot : k ∉ distKeys tl := by
          intro hmem
          exact absurd (distSorted_head_lt hs k hmem) (Nat.lt_irrefl k)
        have hc : (c₀ + 1) % U32 = c₀ + 1 :=
          Nat.mod_eq_of_lt (hb (k, c₀) (by simp))
        rw [bumpAt_cons_self, bumpAt_not_mem hnot]
        simp [distTotal, hc]
        omega
      · have hne : ¬ k₀ = k := by
          intro hh
          subst hh
          exact absurd (distSorted_head_lt hs k₀ hk) (Nat.lt_irrefl k₀)
        have ihh := ih (distSorted_tail hs) hk (fun p hp => hb p (by simp [hp]))
        rw [bumpAt_cons_ne hne]
        simp [distTotal, ihh]
        omega

theorem updateMap_exists_bump (d : Dist) (v : Nat) (hs : DistSorted d) (hne : d ≠ []) :
    ∃ k, k ∈ distKeys d ∧ updateMap d v = bumpAt k d := by
  cases d with
  | nil => exact absurd rfl hne
  | cons p tl =>
      obtain ⟨k₀, c₀⟩ := p
      by_cases hv : v < k₀
      · refine ⟨k₀, by simp [distKeys], ?_⟩
        have hnot : k₀ ∉ distKeys tl := by
          intro hmem
          exact absurd (distSorted_head_lt hs k₀ hmem) (Nat.lt_irrefl k₀)
        rw [bumpAt_cons_self, bumpAt_not_mem hnot]
        simp [updateMap, hv]
      · obtain ⟨k, hk, heq⟩ := updateMapGo_exists v tl k₀ c₀ hs
        exact ⟨k, hk, by simp [updateMap, hv, heq]⟩

/-- Claim C5: observing a value into a distribution is a no-op on the empty
distribution; on a non-empty one it raises the total count by exactly one;
when some key is at most the value, the bucket of the largest such key is
incremented; and when key 0 is present and the value is below every non-zero
key, bucket 0 is incremented. -/
theorem claim_C5 (d : Dist) (v : Nat) (hs : DistSorted d)
    (hb : ∀ p ∈ d, p.2 + 1 < U32) :
    (d = [] → updateMap d v = d) ∧
    (d ≠ [] → distTotal (updateMap d v) = distTotal d + 1) ∧
    (∀ k, k ∈ distKeys d → k ≤ v →
      (∀ kp ∈ distKeys d, kp ≤ v → kp ≤ k) → updateMap d v = bumpAt k d) ∧
    (0 ∈ distKeys d → (∀ kp ∈ distKeys d, kp ≠ 0 → v < kp) →
      updateMap d v = bumpAt 0 d) := by
  refine ⟨fun h => by subst h; rfl, ?_, ?_, ?_⟩
  · intro hne
    obtain ⟨k, hk, heq⟩ := updateMap_exists_bump d v hs hne
    rw [heq]
    exact distTotal_bumpAt d k hs hk hb
  · intro k hk hkv hmax
    cases d with
    | nil => simp [distKeys] at hk
    | cons p tl =>
        obtain ⟨k₀, c₀⟩ := p
        by_cases hv : v < k₀
        · exfalso
          simp only [distKeys, List.map_cons, List.mem_cons] at hk
          rcases hk with rfl | hk
          · exact absurd hkv (Nat.not_le_of_lt hv)
          · have : k₀ < k := distSorted_head_lt hs k hk
            exact absurd hkv (Nat.not_le_of_lt (Nat.lt_trans hv this))
        · have := updateMapGo_eq_max v tl k₀ c₀ hs (Nat.le_of_not_lt hv) k hk hkv hmax
          simp [updateMap, hv, this]
  · intro h0 hlt
    cases d with
    | nil => simp [distKeys] at h0
    | cons p tl =>
        obtain ⟨k₀, c₀⟩ := p
        have hk₀ : k₀ = 0 := by
          by_contra hne0
          have h1 : v < k₀ := hlt k₀ (by simp [distKeys]) hne0
          simp only [distKeys, List.map_cons, List.mem_cons] at h0
          rcases h0 with h0 | h0
          · exact hne0 h0.symm
          · exact absurd (distSorted_head_lt hs 0 h0) (by omega)
        subst hk₀
        have := updateMapGo_eq_max v tl 0 c₀ hs (Nat.zero_le v) 0
          (by simp [distKeys]) (Nat.zero_le v)
          (fun kp hkp hkpv => by
            by_contra hgt
            exact absurd hkpv (Nat.not_le_of_lt (hlt kp hkp (by omega))))
        simp [updateMap, this]

/-- Claim C5 witness at a concrete distribution and observation. -/
theorem claim_C5_witness :
    ([(0, 0), (1, 0), (10, 0)] : Dist) ≠ [] ∧
    distTotal (updateMap [(0, 0), (1, 0), (10, 0)] 5)
      = distTotal [(0, 0), (1, 0), (10, 0)] + 1 ∧
    updateMap [(0, 0), (1, 0), (10, 0)] 5 = bumpAt 1 [(0, 0), (1, 0), (10, 0)] := by
  have h := claim_C5 [(0, 0), (1, 0), (10, 0)] 5 (by decide) (by decide)
  exact ⟨by decide, h.2.1 (by decide),
    h.2.2.1 1 (by decide) (by decide) (by decide)⟩

theorem distKeys_append (d₁ d₂ : Dist) :
    distKeys (d₁ ++ d₂) = distKeys d₁ ++ distKeys d₂ :=
  List.map_append _ _ _

theorem distSet_gt {key : Nat} {d : Dist} (h : ∀ kp ∈ distKeys d, kp < key) :
    distSet key 0 d = d ++ [(key, 0)] := by
  induction d with
  | nil => rfl
  | cons p tl ih =>
      obtain ⟨k₀, v₀⟩ := p
      have hk₀ : k₀ < key := h k₀ (by simp [distKeys])
      have h1 : ¬ key < k₀ := by omega
      have h2 : ¬ key = k₀ := by omega
      have step : distSet key 0 ((k₀, v₀) :: tl) = (k₀, v₀) :: distSet key 0 tl := by
        simp [distSet, distIdx, h1, h2]
      rw [step, ih (fun kp hkp => h kp (by simp [distKeys] at hkp ⊢; tauto)),
        List.cons_append]

theorem distSorted_append_last {d : Dist} {key : Nat} (hs : DistSorted d)
    (h : ∀ kp ∈ distKeys d, kp < key) : DistSorted (d ++ [(key, 0)]) := by
  induction d with
  | nil => trivial
  | cons p tl ih =>
      obtain ⟨k₀, v₀⟩ := p
      cases tl with
      | nil => exact ⟨h k₀ (by simp [distKeys]), trivial⟩
      | cons q tl₂ =>
          obtain ⟨k₁, v₁⟩ := q
          exact ⟨hs.1, ih hs.2 (fun kp hkp => h kp (by simp [distKeys] at hkp ⊢; tauto))⟩

theorem initDistLoop_inv_geo (f s : Nat) (hstep : 2 ≤ s) :
    ∀ (m lastkey : Nat) (d : Dist),
    DistSorted d → (∀ p ∈ d, p.2 = 0) →
    (∀ kp ∈ distKeys d, kp ≤ lastkey) → 1 ≤ lastkey →
    lastkey * s ^ m < U32 →
    DistSorted (initDistLoop f s true m lastkey d) ∧
    (∀ p ∈ initDistLoop f s true m lastkey d, p.2 = 0) ∧
    (initDistLoop f s true m lastkey d).length = d.length + m ∧
    (∀ p ∈ d, p ∈ initDistLoop f s true m lastkey d) := by
  intro m
  induction m with
  | zero =>
      intro lastkey d hs hv hmax h1 _
      exact ⟨hs, hv, by simp [initDistLoop], fun p hp => hp⟩
  | succ n ih =>
      intro lastkey d hs hv hmax h1 hbound
      have hlk0 : ¬ lastkey = 0 := by omega
      have hsle : s ≤ s ^ (n + 1) := Nat.le_self_pow (Nat.succ_ne_zero n) s
      have hmul : s * lastkey ≤ lastkey * s ^ (n + 1) := by
        calc s * lastkey = lastkey * s := Nat.mul_comm s lastkey
        _ ≤ lastkey * s ^ (n + 1) := Nat.mul_le_mul_left lastkey hsle
      have hslU : s * lastkey < U32 := Nat.lt_of_le_of_lt hmul hbound
      have hkey : (s * lastkey) % U32 = s * lastkey := Nat.mod_eq_of_lt hslU
      have hgt : lastkey < s * lastkey := by
        have h2 : 2 * lastkey ≤ s * lastkey := Nat.mul_le_mul_right lastkey hstep
        omega
      have hset : distSet (s * lastkey) 0 d = d ++ [(s * lastkey, 0)] :=
        distSet_gt (fun kp hkp => Nat.lt_of_le_of_lt (hmax kp hkp) hgt)
      have hstep' : initDistLoop f s true (n + 1) lastkey d
          = initDistLoop f s true n (s * lastkey) (d ++ [(s * lastkey, 0)]) := by
        simp [initDistLoop, hlk0, hkey, hset]
      have hbound' : (s * lastkey) * s ^ n < U32 := by
        have : s * lastkey * s ^ n = lastkey * s ^ (n + 1) := by ring
        rw [this]; exact hbound
      have hrest := ih (s * lastkey) (d ++ [(s * lastkey, 0)])
        (distSorted_append_last hs (fun kp hkp => Nat.lt_of_le_of_lt (hmax kp hkp) hgt))
        (by intro p hp
            rcases List.mem_append.mp hp with hp | hp
            · exact hv p hp
            · simp at hp; simp [hp])
        (by intro kp hkp
            rw [distKeys_append] at hkp
            rcases List.mem_append.mp hkp with hkp | hkp
            · exact Nat.le_of_lt (Nat.lt_of_le_of_lt (hmax kp hkp) hgt)
            · simp [distKeys] at hkp; omega)
        (by omega) hbound'
      refine ⟨by rw [hstep']; exact hrest.1, by rw [hstep']; exact hrest.2.1, ?_, ?_⟩
      · rw [hstep', hrest.2.2.1]
        simp
        omega
      · intro p hp
        rw [hstep']
        exact hrest.2.2.2 p (List.mem_append_left _ hp)

theorem initDistLoop_inv_lin (f s : Nat) (hstep : 1 ≤ s) :
    ∀ (m lastkey : Nat) (d : Dist),
    DistSorted d → (∀ p ∈ d, p.2 = 0) →
    (∀ kp ∈ distKeys d, kp ≤ lastkey) → 1 ≤ lastkey →
    lastkey + s * m < U32 →
    DistSorted (initDistLoop f s false m lastkey d) ∧
    (∀ p ∈ initDistLoop f s false m lastkey d, p.2 = 0) ∧
    (initDistLoop f s false m lastkey d).length = d.length + m ∧
    (∀ p ∈ d, p ∈ initDistLoop f s false m lastkey d) := by
  intro m
  induction m with
  | zero =>
      intro lastkey d hs hv hmax h1 _
      exact ⟨hs, hv, by simp [initDistLoop], fun p hp => hp⟩
  | succ n ih =>
      intro lastkey d hs hv hmax h1 hbound
      have hlk0 : ¬ lastkey = 0 := by omega
      have hslU : lastkey + s < U32 := by
        have : s ≤ s * (n + 1) := Nat.le_mul_of_pos_right s (Nat.succ_pos n)
        omega
      have hkey : (lastkey + s) % U32 = lastkey + s := Nat.mod_eq_of_lt hslU
      have hgt : lastkey < lastkey + s := by omega
      have hset : distSet (lastkey + s) 0 d = d ++ [(lastkey + s, 0)] :=
        distSet_gt (fun kp hkp => Nat.lt_of_le_of_lt (hmax kp hkp) hgt)
      have hstep' : initDistLoop f s false (n + 1) lastkey d
          = initDistLoop f s false n (lastkey + s) (d ++ [(lastkey + s, 0)]) := by
        simp [initDistLoop, hlk0, hkey, hset]
      have hbound' : (lastkey + s) + s * n < U32 := by
        have : s * (n + 1) = s + s * n := by ring
        omega
      have hrest := ih (lastkey + s) (d ++ [(lastkey + s, 0)])
        (distSorted_append_last hs (fun kp hkp => Nat.lt_of_le_of_lt (hmax kp hkp) hgt))
        (by intro p hp
            rcases List.mem_append.mp hp with hp | hp
            · exact hv p hp
            · simp at hp; simp [hp])
        (by intro kp hkp
            rw [distKeys_append] at hkp
            rcases List.mem_append.mp hkp with hkp | hkp
            · exact Nat.le_of_lt (Nat.lt_of_le_of_lt (hmax kp hkp) hgt)
            · simp [distKeys] at hkp; omega)
        (by omega) hbound'
      refine ⟨by rw [hstep']; exact hrest.1, by rw [hstep']; exact hrest.2.1, ?_, ?_⟩
      · rw [hstep', hrest.2.2.1]
        simp
        omega
      · intro p hp
        rw [hstep']
        exact hrest.2.2.2 p (List.mem_append_left _ hp)

/-- Claim C6: with firstValue at least 1, totalSpots at least 1, a
non-degenerate step (at least 2 in geometric mode, at least 1 in linear
mode) and keys that fit an unsigned int, the initialized distribution maps
key 0 to 0, has strictly increasing keys, all-zero values, and exactly
totalSpots keys. -/
theorem claim_C6 (f s n : Nat) (factor : Bool) (hf : 1 ≤ f) (hn : 1 ≤ n)
    (hstep : if factor then 2 ≤ s else 1 ≤ s)
    (hbound : (if factor then f * s ^ (n - 2) else f + s * (n - 2)) < U32) :
    (0, 0) ∈ initDistributionKeys f s n factor ∧
    DistSorted (initDistributionKeys f s n factor) ∧
    (∀ p ∈ initDistributionKeys f s n factor, p.2 = 0) ∧
    (initDistributionKeys f s n factor).length = n := by
  match n, hn with
  | 1, _ =>
      refine ⟨by simp [initDistributionKeys, initDistLoop], ?_, ?_, ?_⟩ <;>
        simp [initDistributionKeys, initDistLoop, DistSorted]
  | (n₂ + 2), _ =>
      have hset : distSet f 0 [(0, 0)] = [(0, 0), (f, 0)] := by
        have h1 : ¬ f < 0 := by omega
        have h2 : ¬ f = 0 := by omega
        simp only [distSet, distIdx, if_neg h1, if_neg h2]
      have hfirst : initDistributionKeys f s (n₂ + 2) factor
          = initDistLoop f s factor n₂ f [(0, 0), (f, 0)] := by
        rw [show initDistributionKeys f s (n₂ + 2) factor
          = initDistLoop f s factor n₂ f (distSet f 0 [(0, 0)]) from rfl, hset]
      have hsd : DistSorted [(0, 0), (f, 0)] := ⟨by omega, trivial⟩
      have hvz : ∀ p ∈ ([(0, 0), (f, 0)] : Dist), p.2 = 0 := by
        intro p hp
        simp only [List.mem_cons, List.not_mem_nil, or_false] at hp
        rcases hp with rfl | rfl <;> rfl
      have hmax : ∀ kp ∈ distKeys [(0, 0), (f, 0)], kp ≤ f := by
        intro kp hkp; simp [distKeys] at hkp; omega
      cases factor with
      | true =>
          have hb : f * s ^ n₂ < U32 := by simpa using hbound
          have h := initDistLoop_inv_geo f s (by simpa using hstep) n₂ f
            [(0, 0), (f, 0)] hsd hvz hmax hf hb
          rw [hfirst]
          exact ⟨h.2.2.2 (0, 0) (by simp), h.1, h.2.1, by rw [h.2.2.1]; simp; omega⟩
      | false =>
          have hb : f + s * n₂ < U32 := by simpa using hbound
          have h := initDistLoop_inv_lin f s (by simpa using hstep) n₂ f
            [(0, 0), (f, 0)] hsd hvz hmax hf hb
          rw [hfirst]
          exact ⟨h.2.2.2 (0, 0) (by simp), h.1, h.2.1, by rw [h.2.2.1]; simp; omega⟩

/-- Claim C6 witness at concrete geometric parameters. -/
theorem claim_C6_witness :
    (0, 0) ∈ initDistributionKeys 100 2 4 true ∧
    DistSorted (initDistributionKeys 100 2 4 true) ∧
    (∀ p ∈ initDistributionKeys 100 2 4 true, p.2 = 0) ∧
    (initDistributionKeys 100 2 4 true).length = 4 :=
  claim_C6 100 2 4 true (by decide) (by decide) (by decide) (by decide)

theorem alistFind?_alistIdx_self {κ α : Type} [DecidableEq κ] (d : α) (k : κ)
    (f : α → α) (m : List (κ × α)) :
    alistFind? k (alistIdx d k f m) = some (f (alistGetD d k m)) := by
  induction m with
  | nil => simp [alistIdx, alistFind?, alistGetD]
  | cons p tl ih =>
      obtain ⟨k', v⟩ := p
      by_cases h : k = k'
      · subst h
        simp [alistIdx, alistFind?, alistGetD]
      · simp [alistIdx, alistFind?, alistGetD, h, ih]

theorem alistFind?_alistIdx_ne {κ α : Type} [DecidableEq κ] {q k : κ} (h : q ≠ k)
    (d : α) (f : α → α) (m : List (κ × α)) :
    alistFind? q (alistIdx d k f m) = alistFind? q m := by
  induction m with
  | nil => simp [alistIdx, alistFind?, h]
  | cons p tl ih =>
      obtain ⟨k', v⟩ := p
      by_cases hk : k = k'
      · subst hk
        simp [alistIdx, alistFind?, h]
      · by_cases hq : q = k'
        · subst hq
          simp [alistIdx, alistFind?, hk]
        · simp [alistIdx, alistFind?, hk, hq, ih]

theorem alistFind?_insertNonZero_self (e : List (String × String)) (k : String)
    (v : Nat) :
    alistFind? k (insertNonZero e k v)
      = if v ≠ 0 then some (toString v) else alistFind? k e := by
  by_cases h : v ≠ 0 <;>
    simp [insertNonZero, h, propSet, alistFind?_alistIdx_self]

theorem alistFind?_insertNonZero_ne {q k : String} (h : q ≠ k)
    (e : List (String × String)) (v : Nat) :
    alistFind? q (insertNonZero e k v) = alistFind? q e := by
  by_cases hv : v ≠ 0 <;>
    simp [insertNonZero, hv, propSet, alistFind?_alistIdx_ne h]

theorem distGetD_not_mem {k : Nat} {d : Dist} (h : k ∉ distKeys d) :
    distGetD k d = 0 := by
  induction d with
  | nil => rfl
  | cons p tl ih =>
      obtain ⟨k₀, v₀⟩ := p
      simp only [distKeys, List.map_cons, List.mem_cons, not_or] at h
      simp [distGetD, h.1, ih (by simpa [distKeys] using h.2)]

theorem distGetD_distIdx {d : Dist} (hs : DistSorted d) (a b : Nat) (f : Nat → Nat) :
    distGetD a (distIdx b f d)
      = if a = b then f (distGetD b d) else distGetD a d := by
  induction d with
  | nil => by_cases h : a = b <;> simp [distIdx, distGetD, h]
  | cons p tl ih =>
      obtain ⟨k, v⟩ := p
      by_cases h1 : b < k
      · have hb : distGetD b ((k, v) :: tl) = 0 := by
          have hbk : ¬ b = k := by omega
          have hbtl : b ∉ distKeys tl := by
            intro hmem
            exact absurd (Nat.lt_trans h1 (distSorted_head_lt hs b hmem))
              (Nat.lt_irrefl b)
          simp [distGetD, hbk, distGetD_not_mem hbtl]
        by_cases h : a = b
        · subst h
          have hak : ¬ a = k := by omega
          simp only [distGetD, if_neg hak] at hb
          simp [distIdx, h1, distGetD, hak, hb]
        · simp [distIdx, h1, distGetD, h, Ne.symm h]
      · by_cases h2 : b = k
        · subst h2
          by_cases h : a = b
          · subst h
            simp [distIdx, h1, distGetD]
          · simp [distIdx, h1, distGetD, h]
        · have hkb : k < b := by omega
          by_cases h : a = k
          · subst h
            have hab : ¬ a = b := by omega
            simp [distIdx, h1, h2, distGetD, hab]
          · simp [distIdx, h1, h2, distGetD, h, ih (distSorted_tail hs)]

theorem distGetD_distTouch {d : Dist} (hs : DistSorted d) (a b : Nat) :
    distGetD a (distTouch b d) = distGetD a d := by
  rw [distTouch, distGetD_distIdx hs]
  by_cases h : a = b
  · subst h; simp
  · simp [h]

theorem distSorted_cons_of {k v : Nat} {X : Dist} (hX : DistSorted X)
    (hhead : ∀ kp ∈ distKeys X, k < kp) : DistSorted ((k, v) :: X) := by
  cases X with
  | nil => trivial
  | cons q tl =>
      obtain ⟨k₁, v₁⟩ := q
      exact ⟨hhead k₁ (by simp [distKeys]), hX⟩

theorem mem_distKeys_distIdx {a b : Nat} {f : Nat → Nat} {d : Dist} :
    a ∈ distKeys (distIdx b f d) → a = b ∨ a ∈ distKeys d := by
  induction d with
  | nil => intro h; simp [distIdx, distKeys] at h; exact Or.inl h
  | cons p tl ih =>
      obtain ⟨k, v⟩ := p
      intro h
      by_cases h1 : b < k
      · simp only [distIdx, if_pos h1, distKeys, List.map_cons, List.mem_cons] at h
        rcases h with rfl | h
        · exact Or.inl rfl
        · exact Or.inr (by simpa [distKeys] using h)
      · by_cases h2 : b = k
        · simp only [distIdx, if_neg h1, if_pos h2, distKeys, List.map_cons,
            List.mem_cons] at h
          rcases h with h | h
          · exact Or.inr (by simp [distKeys, h])
          · exact Or.inr (by simp [distKeys] at h ⊢; tauto)
        · simp only [distIdx, if_neg h1, if_neg h2, distKeys, List.map_cons,
            List.mem_cons] at h
          rcases h with h | h
          · exact Or.inr (by simp [distKeys, h])
          · rcases ih (by simpa [distKeys] using h) with h | h
            · exact Or.inl h
            · exact Or.inr (by simp [distKeys] at h ⊢; tauto)

theorem mem_distKeys_distIdx_self (b : Nat) (f : Nat → Nat) (d : Dist) :
    b ∈ distKeys (distIdx b f d) := by
  induction d with
  | nil => simp [distIdx, distKeys]
  | cons p tl ih =>
      obtain ⟨k, v⟩ := p
      by_cases h1 : b < k
      · simp [distIdx, h1, distKeys]
      · by_cases h2 : b = k
        · simp only [distIdx, if_neg h1, if_pos h2, distKeys, List.map_cons,
            List.mem_cons]
          exact Or.inl h2
        · simp only [distIdx, if_neg h1, if_neg h2, distKeys, List.map_cons,
            List.mem_cons]
          exact Or.inr (by simpa [distKeys] using ih)

theorem mem_distKeys_distIdx_of_mem {a : Nat} (b : Nat) (f : Nat → Nat) {d : Dist}
    (h : a ∈ distKeys d) : a ∈ distKeys (distIdx b f d) := by
  induction d with
  | nil => simp [distKeys] at h
  | cons p tl ih =>
      obtain ⟨k, v⟩ := p
      simp only [distKeys, List.map_cons, List.mem_cons] at h
      by_cases h1 : b < k
      · simp only [distIdx, if_pos h1, distKeys, List.map_cons, List.mem_cons]
        rcases h with h | h
        · exact Or.inr (Or.inl h)
        · exact Or.inr (Or.inr h)
      · by_cases h2 : b = k
        · simp only [distIdx, if_neg h1, if_pos h2, distKeys, List.map_cons,
            List.mem_cons]
          rcases h with h | h
          · exact Or.inl h
          · exact Or.inr h
        · simp only [distIdx, if_neg h1, if_neg h2, distKeys, List.map_cons,
            List.mem_cons]
          rcases h with h | h
          · exact Or.inl h
          · exact Or.inr (by simpa [distKeys] using ih (by simpa [distKeys] using h))

theorem distSorted_distIdx {d : Dist} (hs : DistSorted d) (b : Nat) (f : Nat → Nat) :
    DistSorted (distIdx b f d) := by
  induction d with
  | nil => trivial
  | cons p tl ih =>
      obtain ⟨k, v⟩ := p
      by_cases h1 : b < k
      · simp only [distIdx, if_pos h1]
        exact distSorted_cons_of hs (by
          intro kp hkp
          simp only [distKeys, List.map_cons, List.mem_cons] at hkp
          rcases hkp with rfl | hkp
          · exact h1
          · exact Nat.lt_trans h1 (distSorted_head_lt hs kp (by simpa [distKeys] using hkp)))
      · by_cases h2 : b = k
        · subst h2
          simp only [distIdx, if_neg h1, if_pos rfl]
          exact distSorted_cons_of (distSorted_tail hs)
            (distSorted_head_lt hs)
        · simp only [distIdx, if_neg h1, if_neg h2]
          have hkb : k < b := by omega
          exact distSorted_cons_of (ih (distSorted_tail hs)) (by
            intro kp hkp
            rcases mem_distKeys_distIdx hkp with rfl | hkp
            · exact hkb
            · exact distSorted_head_lt hs kp hkp)

/-- Claim C8 counterexample: with an invalid-client-message count of 2 and an
old-record-version count of 3, the produced r_inv value is the string of 3,
not of the five-reason sum 5. -/
theorem claim_C8_counterexample :
    alistFind? "r_inv" (addRecordsPerRejectedReasonToRecordFields [] [(0, 2), (4, 3)]).1
      = some "3" ∧
    some "3" ≠ some (toString (2 + 3 : Nat)) := by
  constructor
  · rfl
  · decide

/-- Claim C8 as amended: the five invalid-family rejection reasons all write
the key r_inv through insertNonZero, so the key carries the count of the last
reason in source order (old record version, validation failed, event name
missing, required argument missing, invalid client message type) whose count
is non-zero, and is left untouched when all five counts are zero. -/
theorem claim_C8_amended (ext : List (String × String)) (d : Dist)
    (hs : DistSorted d) :
    alistFind? "r_inv" (addRecordsPerRejectedReasonToRecordFields ext d).1 =
      (if distGetD REJECTED_REASON_OLD_RECORD_VERSION d ≠ 0 then
        some (toString (distGetD REJECTED_REASON_OLD_RECORD_VERSION d))
      else if distGetD REJECTED_REASON_VALIDATION_FAILED d ≠ 0 then
        some (toString (distGetD REJECTED_REASON_VALIDATION_FAILED d))
      else if distGetD REJECTED_REASON_EVENT_NAME_MISSING d ≠ 0 then
        some (toString (distGetD REJECTED_REASON_EVENT_NAME_MISSING d))
      else if distGetD REJECTED_REASON_REQUIRED_ARGUMENT_MISSING d ≠ 0 then
        some (toString (distGetD REJECTED_REASON_REQUIRED_ARGUMENT_MISSING d))
      else if distGetD REJECTED_REASON_INVALID_CLIENT_MESSAGE_TYPE d ≠ 0 then
        some (toString (distGetD REJECTED_REASON_INVALID_CLIENT_MESSAGE_TYPE d))
      else alistFind? "r_inv" ext) := by
  have s0 := hs
  have s1 : DistSorted (distTouch REJECTED_REASON_INVALID_CLIENT_MESSAGE_TYPE d) :=
    distSorted_distIdx s0 _ _
  have s2 : DistSorted (distTouch REJECTED_REASON_REQUIRED_ARGUMENT_MISSING
      (distTouch REJECTED_REASON_INVALID_CLIENT_MESSAGE_TYPE d)) :=
    distSorted_distIdx s1 _ _
  have s3 : DistSorted (distTouch REJECTED_REASON_EVENT_NAME_MISSING
      (distTouch REJECTED_REASON_REQUIRED_ARGUMENT_MISSING
        (distTouch REJECTED_REASON_INVALID_CLIENT_MESSAGE_TYPE d))) :=
    distSorted_distIdx s2 _ _
  have s4 : DistSorted (distTouch REJECTED_REASON_VALIDATION_FAILED
      (distTouch REJECTED_REASON_EVENT_NAME_MISSING
        (distTouch REJECTED_REASON_REQUIRED_ARGUMENT_MISSING
          (distTouch REJECTED_REASON_INVALID_CLIENT_MESSAGE_TYPE d)))) :=
    distSorted_distIdx s3 _ _
  have s5 : DistSorted (distTouch REJECTED_REASON_OLD_RECORD_VERSION
      (distTouch REJECTED_REASON_VALIDATION_FAILED
        (distTouch REJECTED_REASON_EVENT_NAME_MISSING
          (distTouch REJECTED_REASON_REQUIRED_ARGUMENT_MISSING
            (distTouch REJECTED_REASON_INVALID_CLIENT_MESSAGE_TYPE d))))) :=
    distSorted_distIdx s4 _ _
  have s6 : DistSorted (distTouch REJECTED_REASON_EVENT_EXPIRED
      (distTouch REJECTED_REASON_OLD_RECORD_VERSION
        (distTouch REJECTED_REASON_VALIDATION_FAILED
          (distTouch REJECTED_REASON_EVENT_NAME_MISSING
            (distTouch REJECTED_REASON_REQUIRED_ARGUMENT_MISSING
              (distTouch REJECTED_REASON_INVALID_CLIENT_MESSAGE_TYPE d)))))) :=
    distSorted_distIdx s5 _ _
  have s7 : DistSorted (distTouch REJECTED_REASON_SERVER_DECLINED
      (distTouch REJECTED_REASON_EVENT_EXPIRED
        (distTouch REJECTED_REASON_OLD_RECORD_VERSION
          (distTouch REJECTED_REASON_VALIDATION_FAILED
            (distTouch REJECTED_REASON_EVENT_NAME_MISSING
              (distTouch REJECTED_REASON_REQUIRED_ARGUMENT_MISSING
                (distTouch REJECTED_REASON_INVALID_CLIENT_MESSAGE_TYPE d))))))) :=
    distSorted_distIdx s6 _ _
  have s8 : DistSorted (distTouch REJECTED_REASON_TENANT_KILLED
      (distTouch REJECTED_REASON_SERVER_DECLINED
        (distTouch REJECTED_REASON_EVENT_EXPIRED
          (distTouch REJECTED_REASON_OLD_RECORD_VERSION
            (distTouch REJECTED_REASON_VALIDATION_FAILED
              (distTouch REJECTED_REASON_EVENT_NAME_MISSING
                (distTouch REJECTED_REASON_REQUIRED_ARGUMENT_MISSING
                  (distTouch REJECTED_REASON_INVALID_CLIENT_MESSAGE_TYPE d)))))))) :=
    distSorted_distIdx s7 _ _
  simp only [addRecordsPerRejectedReasonToRecordFields, rejReasonStep]
  simp only [distGetD_distTouch s0, distGetD_distTouch s1, distGetD_distTouch s2,
    distGetD_distTouch s3, distGetD_distTouch s4, distGetD_distTouch s5,
    distGetD_distTouch s6, distGetD_distTouch s7, distGetD_distTouch s8]
  rw [alistFind?_insertNonZero_ne (by decide), alistFind?_insertNonZero_ne (by decide),
    alistFind?_insertNonZero_ne (by decide), alistFind?_insertNonZero_ne (by decide)]
  rw [alistFind?_insertNonZero_self, alistFind?_insertNonZero_self,
    alistFind?_insertNonZero_self, alistFind?_insertNonZero_self,
    alistFind?_insertNonZero_self]

/-- Claim C8 amended witness: on the sorted distribution with counts 2 at
reason 0 and 3 at reason 4, r_inv ends up carrying 3 (the last non-zero
reason in source order), as the amended claim computes. -/
theorem claim_C8_amended_witness :
    DistSorted ([(0, 2), (4, 3)] : Dist) ∧
    alistFind? "r_inv"
      (addRecordsPerRejectedReasonToRecordFields [] [(0, 2), (4, 3)]).1
      = some "3" := by
  refine ⟨by decide, ?_⟩
  rw [claim_C8_amended [] [(0, 2), (4, 3)] (by decide)]
  rfl

theorem statsAvailLoop_eq (l : List (String × TelemetryStats)) :
    ∀ (a b c e : Nat), a < U32 → b < U32 → c < U32 → e < U32 →
    statsAvailLoop l (a, b, c, e) =
      ((a + sumOverTenants (fun t => t.recordStats.rejectedCount) l) % U32,
       (b + sumOverTenants (fun t => t.recordStats.bannedCount) l) % U32,
       (c + sumOverTenants (fun t => t.recordStats.droppedCount) l) % U32,
       (e + sumOverTenants
         (fun t => usub t.recordStats.receivedCount t.recordStats.receivedMetastatsCount) l)
         % U32) := by
  induction l with
  | nil =>
      intro a b c e ha hb hc he
      simp [statsAvailLoop, sumOverTenants, Nat.mod_eq_of_lt, ha, hb, hc, he]
  | cons p tl ih =>
      intro a b c e ha hb hc he
      obtain ⟨tok, ts⟩ := p
      have hU : 0 < U32 := by decide
      simp only [statsAvailLoop]
      rw [ih _ _ _ _ (Nat.mod_lt _ hU) (Nat.mod_lt _ hU) (Nat.mod_lt _ hU)
        (Nat.mod_lt _ hU)]
      simp [sumOverTenants, Nat.mod_add_mod, Nat.add_assoc]

theorem usub_eq {a b : Nat} (hba : b ≤ a) (ha : a < U32) : usub a b = a - b := by
  unfold usub
  have hb : b < U32 := Nat.lt_of_le_of_lt hba ha
  rw [Nat.mod_eq_of_lt hb]
  have hsplit : a + (U32 - b) = U32 + (a - b) := by omega
  rw [hsplit, Nat.add_mod_left]
  exact Nat.mod_eq_of_lt (by omega)

theorem sumOverTenants_congr {f g : TelemetryStats → Nat}
    {l : List (String × TelemetryStats)} (h : ∀ p ∈ l, f p.2 = g p.2) :
    sumOverTenants f l = sumOverTenants g l := by
  induction l with
  | nil => rfl
  | cons p tl ih =>
      simp only [sumOverTenants, List.map_cons, List.sum_cons] at ih ⊢
      rw [h p (by simp), ih (fun q hq => h q (by simp [hq]))]

theorem sumOverTenants_pos_iff (f : TelemetryStats → Nat)
    (l : List (String × TelemetryStats)) :
    0 < sumOverTenants f l ↔ ∃ p ∈ l, 0 < f p.2 := by
  induction l with
  | nil => simp [sumOverTenants]
  | cons p tl ih =>
      simp only [sumOverTenants, List.map_cons, List.sum_cons] at ih ⊢
      constructor
      · intro h
        by_cases h0 : 0 < f p.2
        · exact ⟨p, by simp, h0⟩
        · have : 0 < (tl.map (fun q => f q.2)).sum := by omega
          obtain ⟨q, hq, hfq⟩ := ih.mp this
          exact ⟨q, by simp [hq], hfq⟩
      · rintro ⟨q, hq, hfq⟩
        cases hq with
        | head => omega
        | tail _ hq =>
            have := ih.mpr ⟨q, hq, hfq⟩
            omega

/-- Claim C2: on any engine state whose tenant counters fit an unsigned int
(each row's metastats-received at most its received count, each of the four
tenant sums below 2^32), has_stats_data_available is true exactly when some
tenant row has a non-zero rejected, banned or dropped counter or a non-zero
received minus metastats-received difference, or the global PackageStats
shows more packages posted than metastats-only posted or more acknowledged
than metastats-only acknowledged. -/
theorem claim_C2 (s : MetaStatsState)
    (hrow : ∀ p ∈ s.m_telemetryTenantStats,
      p.2.recordStats.receivedMetastatsCount ≤ p.2.recordStats.receivedCount ∧
      p.2.recordStats.receivedCount < U32)
    (h₁ : sumOverTenants (fun t => t.recordStats.rejectedCount)
      s.m_telemetryTenantStats < U32)
    (h₂ : sumOverTenants (fun t => t.recordStats.bannedCount)
      s.m_telemetryTenantStats < U32)
    (h₃ : sumOverTenants (fun t => t.recordStats.droppedCount)
      s.m_telemetryTenantStats < U32)
    (h₄ : sumOverTenants
      (fun t => t.recordStats.receivedCount - t.recordStats.receivedMetastatsCount)
      s.m_telemetryTenantStats < U32) :
    hasStatsDataAvailable s = true ↔
      ((∃ p ∈ s.m_telemetryTenantStats,
          p.2.recordStats.rejectedCount ≠ 0 ∨
          p.2.recordStats.bannedCount ≠ 0 ∨
          p.2.recordStats.droppedCount ≠ 0 ∨
          p.2.recordStats.receivedCount - p.2.recordStats.receivedMetastatsCount ≠ 0) ∨
        s.m_telemetryStats.packageStats.totalMetastatsOnlyPkgsAcked <
          s.m_telemetryStats.packageStats.totalPkgsAcked ∨
        s.m_telemetryStats.packageStats.totalMetastatsOnlyPkgsToBeAcked <
          s.m_telemetryStats.packageStats.totalPkgsToBeAcked) := by
  have hsub : sumOverTenants
      (fun t => usub t.recordStats.receivedCount t.recordStats.receivedMetastatsCount)
      s.m_telemetryTenantStats
      = sumOverTenants
        (fun t => t.recordStats.receivedCount - t.recordStats.receivedMetastatsCount)
        s.m_telemetryTenantStats :=
    sumOverTenants_congr (fun p hp => usub_eq (hrow p hp).1 (hrow p hp).2)
  have hloop := statsAvailLoop_eq s.m_telemetryTenantStats 0 0 0 0
    (by decide) (by decide) (by decide) (by decide)
  simp only [Nat.zero_add] at hloop
  rw [hsub] at hloop
  simp only [hasStatsDataAvailable, hloop, Nat.mod_eq_of_lt h₁, Nat.mod_eq_of_lt h₂,
    Nat.mod_eq_of_lt h₃, Nat.mod_eq_of_lt h₄, Bool.or_eq_true, decide_eq_true_eq]
  rw [sumOverTenants_pos_iff, sumOverTenants_pos_iff, sumOverTenants_pos_iff,
    sumOverTenants_pos_iff]
  constructor
  · rintro (((((⟨p, hp, hfp⟩ | ⟨p, hp, hfp⟩) | ⟨p, hp, hfp⟩) | ⟨p, hp, hfp⟩) | hg) | hg)
    · exact Or.inl ⟨p, hp, Or.inl (by omega)⟩
    · exact Or.inl ⟨p, hp, Or.inr (Or.inl (by omega))⟩
    · exact Or.inl ⟨p, hp, Or.inr (Or.inr (Or.inl (by omega)))⟩
    · exact Or.inl ⟨p, hp, Or.inr (Or.inr (Or.inr (by omega)))⟩
    · exact Or.inr (Or.inl hg)
    · exact Or.inr (Or.inr hg)
  · rintro (⟨p, hp, (hfp | hfp | hfp | hfp)⟩ | hg | hg)
    · exact Or.inl (Or.inl (Or.inl (Or.inl (Or.inl ⟨p, hp, by omega⟩))))
    · exact Or.inl (Or.inl (Or.inl (Or.inl (Or.inr ⟨p, hp, by omega⟩))))
    · exact Or.inl (Or.inl (Or.inl (Or.inr ⟨p, hp, by omega⟩)))
    · exact Or.inl (Or.inl (Or.inr ⟨p, hp, by omega⟩))
    · exact Or.inl (Or.inr hg)
    · exact Or.inr hg

/-- Claim C2 witness at a concrete one-tenant state with a rejected record. -/
theorem claim_C2_witness :
    hasStatsDataAvailable exampleState = true ↔
      ((∃ p ∈ exampleState.m_telemetryTenantStats,
          p.2.recordStats.rejectedCount ≠ 0 ∨
          p.2.recordStats.bannedCount ≠ 0 ∨
          p.2.recordStats.droppedCount ≠ 0 ∨
          p.2.recordStats.receivedCount - p.2.recordStats.receivedMetastatsCount ≠ 0) ∨
        exampleState.m_telemetryStats.packageStats.totalMetastatsOnlyPkgsAcked <
          exampleState.m_telemetryStats.packageStats.totalPkgsAcked ∨
        exampleState.m_telemetryStats.packageStats.totalMetastatsOnlyPkgsToBeAcked <
          exampleState.m_telemetryStats.packageStats.totalPkgsToBeAcked) :=
  claim_C2 exampleState (by decide) (by decide) (by decide) (by decide) (by decide)

theorem alistGetD_alistIdx_ne {κ α : Type} [DecidableEq κ] {q k : κ} (h : q ≠ k)
    (d₁ d₂ : α) (f : α → α) (m : List (κ × α)) :
    alistGetD d₂ q (alistIdx d₁ k f m) = alistGetD d₂ q m := by
  unfold alistGetD
  rw [alistFind?_alistIdx_ne h]

theorem alistFind?_mem {κ α : Type} [DecidableEq κ] {k : κ} {v : α}
    {m : List (κ × α)} (h : alistFind? k m = some v) : (k, v) ∈ m := by
  induction m with
  | nil => simp [alistFind?] at h
  | cons p tl ih =>
      obtain ⟨k', v'⟩ := p
      by_cases hk : k = k'
      · subst hk
        simp [alistFind?] at h
        subst h
        simp
      · simp only [alistFind?, if_neg hk] at h
        simp [ih h]

theorem alistGetD_of_find {κ α : Type} [DecidableEq κ] {k : κ} {v : α}
    {m : List (κ × α)} (d : α) (h : alistFind? k m = some v) :
    alistGetD d k m = v := by
  unfold alistGetD
  rw [h]

theorem distGetD_distIdx_self {d : Dist} (hs : DistSorted d) (b : Nat)
    (f : Nat → Nat) : distGetD b (distIdx b f d) = f (distGetD b d) := by
  rw [distGetD_distIdx hs]
  exact if_pos rfl

theorem alistFind?_mem_keys {κ α : Type} [DecidableEq κ] {k : κ} {v : α}
    {m : List (κ × α)} (h : alistFind? k m = some v) : k ∈ m.map Prod.fst := by
  have := alistFind?_mem h
  exact List.mem_map.mpr ⟨(k, v), this, rfl⟩

theorem rejectLoop_find_not_mem (reason : Nat) (counts : List (String × Nat)) :
    ∀ (m : List (String × TelemetryStats)) (acc : Nat) (tok : String),
    tok ∉ counts.map Prod.fst →
    alistFind? tok (rejectLoop reason counts m acc).1 = alistFind? tok m := by
  induction counts with
  | nil => intro m acc tok _; rfl
  | cons p rest ih =>
      intro m acc tok htok
      obtain ⟨tok₀, cnt₀⟩ := p
      simp only [List.map_cons, List.mem_cons, not_or] at htok
      simp only [rejectLoop]
      rw [ih _ _ _ htok.2, alistFind?_alistIdx_ne htok.1]

theorem rejectLoop_find_mem (reason : Nat) (counts : List (String × Nat)) :
    ∀ (m : List (String × TelemetryStats)) (acc : Nat),
    (counts.map Prod.fst).Nodup →
    ∀ (tok : String) (cnt : Nat), (tok, cnt) ∈ counts →
    alistFind? tok (rejectLoop reason counts m acc).1
      = some (rejectRow reason cnt (alistGetD {} tok m)) := by
  induction counts with
  | nil => intro m acc _ tok cnt h; simp at h
  | cons p rest ih =>
      intro m acc hnodup tok cnt hmem
      obtain ⟨tok₀, cnt₀⟩ := p
      simp only [List.map_cons, List.nodup_cons] at hnodup
      simp only [rejectLoop]
      rcases List.mem_cons.mp hmem with heq | hmem
      · have h1 : tok = tok₀ := congrArg Prod.fst heq
        have h2 : cnt = cnt₀ := congrArg Prod.snd heq
        subst h1
        subst h2
        rw [rejectLoop_find_not_mem reason rest _ _ _ hnodup.1,
          alistFind?_alistIdx_self]
      · have htokne : tok ≠ tok₀ := fun hh =>
          hnodup.1 (hh ▸ List.mem_map.mpr ⟨(tok, cnt), hmem, rfl⟩)
        rw [ih _ _ hnodup.2 tok cnt hmem, alistGetD_alistIdx_ne htokne]

theorem map_mod_sum {counts : List (String × Nat)} (hcnt : ∀ p ∈ counts, p.2 < U32) :
    (counts.map (fun p => p.2 % U32)).sum = (counts.map Prod.snd).sum := by
  induction counts with
  | nil => rfl
  | cons p rest ih =>
      simp only [List.map_cons, List.sum_cons]
      rw [Nat.mod_eq_of_lt (hcnt p (by simp)), ih (fun q hq => hcnt q (by simp [hq]))]

theorem rejectLoop_snd (reason : Nat) (counts : List (String × Nat)) :
    ∀ (m : List (String × TelemetryStats)) (acc : Nat),
    (rejectLoop reason counts m acc).2
      = acc + (counts.map (fun p => p.2 % U32)).sum := by
  induction counts with
  | nil => intro m acc; simp [rejectLoop]
  | cons p rest ih =>
      intro m acc
      obtain ⟨tok₀, cnt₀⟩ := p
      simp only [rejectLoop, List.map_cons, List.sum_cons]
      rw [ih]
      omega

/-- Claim C3 counterexample: one tenant rejecting 3 records leaves the global
row's rejected counter at 0 (the tenant row and the global per-reason map do
receive the 3), while the claim requires the sum 3 to be added to the global
rejected counter. -/
theorem claim_C3_counterexample :
    (updateOnRecordsRejected {} REJECTED_REASON_VALIDATION_FAILED
      [("t1-x", 3)]).m_telemetryStats.recordStats.rejectedCount = 0 ∧
    distGetD REJECTED_REASON_VALIDATION_FAILED
      ((updateOnRecordsRejected {} REJECTED_REASON_VALIDATION_FAILED
        [("t1-x", 3)]).m_telemetryStats.recordStats.rejectedCountReasonDistribution)
      = 3 ∧
    (0 : Nat) ≠ 3 := by
  refine ⟨rfl, rfl, by decide⟩

/-- Claim C3 as amended: on_records_rejected adds each tenant's count to that
tenant's rejected counter and per-reason map, lazily creating the tenant row,
and adds the sum of all counts to the global row's per-reason map only; the
global row's rejected counter is unchanged. -/
theorem claim_C3_amended (s : MetaStatsState) (reason : Nat)
    (counts : List (String × Nat))
    (hnodup : (counts.map Prod.fst).Nodup)
    (hcnt : ∀ p ∈ counts, p.2 < U32)
    (hrs : ∀ p ∈ s.m_telemetryTenantStats,
      DistSorted p.2.recordStats.rejectedCountReasonDistribution)
    (hgs : DistSorted s.m_telemetryStats.recordStats.rejectedCountReasonDistribution)
    (hrowb : ∀ p ∈ counts,
      (alistGetD {} p.1 s.m_telemetryTenantStats).recordStats.rejectedCount + p.2 < U32 ∧
      distGetD reason
        (alistGetD {} p.1 s.m_telemetryTenantStats).recordStats.rejectedCountReasonDistribution
        + p.2 < U32)
    (hgb : distGetD reason
      s.m_telemetryStats.recordStats.rejectedCountReasonDistribution
      + (counts.map Prod.snd).sum < U32) :
    (∀ p ∈ counts,
      p.1 ∈ (updateOnRecordsRejected s reason counts).m_telemetryTenantStats.map Prod.fst ∧
      (alistGetD {} p.1
        (updateOnRecordsRejected s reason counts).m_telemetryTenantStats).recordStats.rejectedCount
        = (alistGetD {} p.1 s.m_telemetryTenantStats).recordStats.rejectedCount + p.2 ∧
      distGetD reason
        (alistGetD {} p.1
          (updateOnRecordsRejected s reason counts).m_telemetryTenantStats).recordStats.rejectedCountReasonDistribution
        = distGetD reason
          (alistGetD {} p.1 s.m_telemetryTenantStats).recordStats.rejectedCountReasonDistribution
          + p.2) ∧
    (∀ tok, tok ∉ counts.map Prod.fst →
      alistFind? tok (updateOnRecordsRejected s reason counts).m_telemetryTenantStats
        = alistFind? tok s.m_telemetryTenantStats) ∧
    distGetD reason
      (updateOnRecordsRejected s reason counts).m_telemetryStats.recordStats.rejectedCountReasonDistribution
      = distGetD reason s.m_telemetryStats.recordStats.rejectedCountReasonDistribution
        + (counts.map Prod.snd).sum ∧
    (updateOnRecordsRejected s reason counts).m_telemetryStats.recordStats.rejectedCount
      = s.m_telemetryStats.recordStats.rejectedCount := by
  have hmodsum := map_mod_sum hcnt
  have hmap : (updateOnRecordsRejected s reason counts).m_telemetryTenantStats
      = (rejectLoop reason counts s.m_telemetryTenantStats 0).1 := rfl
  refine ⟨?_, ?_, ?_, rfl⟩
  · intro p hp
    have hfind := rejectLoop_find_mem reason counts s.m_telemetryTenantStats 0
      hnodup p.1 p.2 (by simpa using hp)
    have hsorted : DistSorted (alistGetD ({} : TelemetryStats) p.1
        s.m_telemetryTenantStats).recordStats.rejectedCountReasonDistribution := by
      unfold alistGetD
      cases hfound : alistFind? p.1 s.m_telemetryTenantStats with
      | none => exact trivial
      | some row => exact hrs (p.1, row) (alistFind?_mem hfound)
    refine ⟨?_, ?_, ?_⟩
    · rw [hmap]
      exact alistFind?_mem_keys hfind
    · rw [hmap, alistGetD_of_find _ hfind]
      show ((alistGetD {} p.1 s.m_telemetryTenantStats).recordStats.rejectedCount
          + p.2 % U32) % U32
        = (alistGetD {} p.1 s.m_telemetryTenantStats).recordStats.rejectedCount + p.2
      rw [Nat.mod_eq_of_lt (hcnt p hp), Nat.mod_eq_of_lt (hrowb p hp).1]
    · rw [hmap, alistGetD_of_find _ hfind]
      show distGetD reason (distIdx reason (fun c => (c + p.2 % U32) % U32)
          (alistGetD {} p.1
            s.m_telemetryTenantStats).recordStats.rejectedCountReasonDistribution)
        = distGetD reason
          (alistGetD {} p.1
            s.m_telemetryTenantStats).recordStats.rejectedCountReasonDistribution + p.2
      rw [distGetD_distIdx_self hsorted]
      rw [Nat.mod_eq_of_lt (hcnt p hp), Nat.mod_eq_of_lt (hrowb p hp).2]
  · intro tok htok
    rw [hmap]
    exact rejectLoop_find_not_mem reason counts _ _ _ htok
  · show distGetD reason (distIdx reason
      (fun c => (c + (rejectLoop reason counts s.m_telemetryTenantStats 0).2) % U32)
      s.m_telemetryStats.recordStats.rejectedCountReasonDistribution) = _
    rw [distGetD_distIdx_self hgs]
    rw [rejectLoop_snd, Nat.zero_add, hmodsum, Nat.mod_eq_of_lt hgb]

/-- Claim C3 amended witness at a concrete two-tenant count map on the
default engine state. -/
theorem claim_C3_amended_witness :
    (∀ p ∈ ([("t1-x", 3), ("t2-y", 1)] : List (String × Nat)),
      p.1 ∈ (updateOnRecordsRejected {} 3
        [("t1-x", 3), ("t2-y", 1)]).m_telemetryTenantStats.map Prod.fst ∧
      (alistGetD {} p.1
        (updateOnRecordsRejected {} 3
          [("t1-x", 3), ("t2-y", 1)]).m_telemetryTenantStats).recordStats.rejectedCount
        = (alistGetD {} p.1
          ({} : MetaStatsState).m_telemetryTenantStats).recordStats.rejectedCount + p.2 ∧
      distGetD 3
        (alistGetD {} p.1
          (updateOnRecordsRejected {} 3
            [("t1-x", 3), ("t2-y", 1)]).m_telemetryTenantStats).recordStats.rejectedCountReasonDistribution
        = distGetD 3
          (alistGetD {} p.1
            ({} : MetaStatsState).m_telemetryTenantStats).recordStats.rejectedCountReasonDistribution
          + p.2) ∧
    (∀ tok, tok ∉ ([("t1-x", 3), ("t2-y", 1)] : List (String × Nat)).map Prod.fst →
      alistFind? tok (updateOnRecordsRejected {} 3
        [("t1-x", 3), ("t2-y", 1)]).m_telemetryTenantStats
        = alistFind? tok ({} : MetaStatsState).m_telemetryTenantStats) ∧
    distGetD 3
      (updateOnRecordsRejected {} 3
        [("t1-x", 3), ("t2-y", 1)]).m_telemetryStats.recordStats.rejectedCountReasonDistribution
      = distGetD 3
        ({} : MetaStatsState).m_telemetryStats.recordStats.rejectedCountReasonDistribution
        + (([("t1-x", 3), ("t2-y", 1)] : List (String × Nat)).map Prod.snd).sum ∧
    (updateOnRecordsRejected {} 3
      [("t1-x", 3), ("t2-y", 1)]).m_telemetryStats.recordStats.rejectedCount
      = ({} : MetaStatsState).m_telemetryStats.recordStats.rejectedCount :=
  claim_C3_amended {} 3 [("t1-x", 3), ("t2-y", 1)] (by decide) (by decide)
    (by intro p hp; simp at hp) (by exact trivial) (by decide) (by decide)

theorem mapFst_map_pair {κ α β : Type} (l : List (κ × α)) (g : κ × α → β) :
    (l.map (fun p => (p.1, g p))).map Prod.fst = l.map Prod.fst := by
  induction l with
  | nil => rfl
  | cons p tl ih => simp [ih]

theorem snapLoop_snd (sid tokc : String) (freq : Nat) (kind : RollUpKind) (now : Nat)
    (l : List (String × TelemetryStats)) :
    (snapLoop sid tokc freq kind now l).2
      = l.map (fun p => (p.1, (privateSnapStatsToRecord sid tokc freq kind now p.2).2)) := by
  induction l with
  | nil => rfl
  | cons p tl ih => simp [snapLoop, ih]

theorem snapLoop_fst_length (sid tokc : String) (freq : Nat) (kind : RollUpKind)
    (now : Nat) (l : List (String × TelemetryStats)) :
    (snapLoop sid tokc freq kind now l).1.length = l.length := by
  induction l with
  | nil => rfl
  | cons p tl ih => simp [snapLoop, ih]

theorem snapStatsToRecord_snd_tenants (s : MetaStatsState) (kind : RollUpKind)
    (now : Nat) :
    (snapStatsToRecord s kind now).2.m_telemetryTenantStats
      = (snapLoop s.m_sessionId s.metaStatsTenantToken s.metaStatsSendIntervalSec
          kind now s.m_telemetryTenantStats).2 := by
  unfold snapStatsToRecord
  split <;> rfl

theorem rowCleared_privateClearStats (t : TelemetryStats) :
    RowCleared (privateClearStats t) :=
  ⟨rfl, rfl, rfl, rfl, rfl, rfl, rfl, rfl, rfl, rfl, rfl⟩

theorem generateStatsEvent_stop_snd (s : MetaStatsState) (now : Nat) :
    (generateStatsEvent s ACT_STATS_ROLLUP_KIND_STOP now).2
      = clearStats (resetStats
          (snapStatsToRecord s ACT_STATS_ROLLUP_KIND_STOP now).2 false now) := by
  unfold generateStatsEvent
  rw [if_pos (Or.inr (by decide :
    (ACT_STATS_ROLLUP_KIND_STOP : RollUpKind) ≠ ACT_STATS_ROLLUP_KIND_ONGOING))]
  rw [if_pos rfl]

/-- Claim C4 counterexample: on the one-tenant example state, a Stop rollup
leaves the tenant map with its key, and on a freshly constructed engine a
Stop rollup leaves the global row's rejected-reason map with the nine entries
the snapshot projection itself inserted — while the claim requires the tenant
map and every map inside the global row to be empty. -/
theorem claim_C4_counterexample :
    (generateStatsEvent exampleState ACT_STATS_ROLLUP_KIND_STOP
      9).2.m_telemetryTenantStats.map Prod.fst = ["t-x"] ∧
    (["t-x"] : List String) ≠ [] ∧
    (generateStatsEvent (metaStatsInit {} "mst-abc" 60 5 "sid")
      ACT_STATS_ROLLUP_KIND_STOP
      9).2.m_telemetryStats.recordStats.rejectedCountReasonDistribution
      = [(0, 0), (1, 0), (2, 0), (3, 0), (4, 0), (5, 0), (6, 0), (7, 0), (8, 0)] ∧
    ([(0, 0), (1, 0), (2, 0), (3, 0), (4, 0), (5, 0), (6, 0), (7, 0), (8, 0)] : Dist)
      ≠ [] := by
  exact ⟨by decide, by decide, by decide, by decide⟩

/-- Claim C4 as amended: after a Stop rollup the maps that privateClearStats
empties are empty in the global row and in every tenant row (the HTTP-code
maps, the retries distribution, the RTT and log-latency distributions, the
size histograms and the per-event-type maps), but the tenant map itself keeps
its keys, and the reason maps and per-latency map of a row are not cleared. -/
theorem claim_C4_amended (s : MetaStatsState) (now : Nat) :
    RowCleared (generateStatsEvent s ACT_STATS_ROLLUP_KIND_STOP
      now).2.m_telemetryStats ∧
    (generateStatsEvent s ACT_STATS_ROLLUP_KIND_STOP
      now).2.m_telemetryTenantStats.map Prod.fst
      = s.m_telemetryTenantStats.map Prod.fst ∧
    ∀ p ∈ (generateStatsEvent s ACT_STATS_ROLLUP_KIND_STOP
      now).2.m_telemetryTenantStats, RowCleared p.2 := by
  rw [generateStatsEvent_stop_snd]
  refine ⟨rowCleared_privateClearStats _, ?_, ?_⟩
  · show ((resetStats (snapStatsToRecord s ACT_STATS_ROLLUP_KIND_STOP now).2 false
        now).m_telemetryTenantStats.map
        (fun p => (p.1, privateClearStats p.2))).map Prod.fst = _
    rw [mapFst_map_pair]
    show ((snapStatsToRecord s ACT_STATS_ROLLUP_KIND_STOP
        now).2.m_telemetryTenantStats.map
        (fun p => (p.1, resetRow false now _ _ p.2))).map Prod.fst = _
    rw [mapFst_map_pair, snapStatsToRecord_snd_tenants, snapLoop_snd, mapFst_map_pair]
  · intro p hp
    have hp' : p ∈ (resetStats (snapStatsToRecord s ACT_STATS_ROLLUP_KIND_STOP now).2
        false now).m_telemetryTenantStats.map
        (fun q => (q.1, privateClearStats q.2)) := hp
    obtain ⟨q, _, rfl⟩ := List.mem_map.mp hp'
    exact rowCleared_privateClearStats _

/-- Claim C4 amended witness at the concrete one-tenant example state. -/
theorem claim_C4_amended_witness :
    RowCleared (generateStatsEvent exampleState ACT_STATS_ROLLUP_KIND_STOP
      9).2.m_telemetryStats ∧
    (generateStatsEvent exampleState ACT_STATS_ROLLUP_KIND_STOP
      9).2.m_telemetryTenantStats.map Prod.fst
      = exampleState.m_telemetryTenantStats.map Prod.fst ∧
    ∀ p ∈ (generateStatsEvent exampleState ACT_STATS_ROLLUP_KIND_STOP
      9).2.m_telemetryTenantStats, RowCleared p.2 :=
  claim_C4_amended exampleState 9

theorem distClearValues_zero (d : Dist) : ∀ p ∈ distClearValues d, p.2 = 0 := by
  intro p hp
  obtain ⟨q, _, rfl⟩ := List.mem_map.mp hp
  rfl

theorem sdistClearValues_zero (d : SDist) : ∀ p ∈ sdistClearValues d, p.2 = 0 := by
  intro p hp
  obtain ⟨q, _, rfl⟩ := List.mem_map.mp hp
  rfl

theorem ite_fileSize_zero (c : Bool) (A B : OfflineStorageStats)
    (hA : A.fileSizeInBytes = 0) (hB : B.fileSizeInBytes = 0) :
    (if c then A else B).fileSizeInBytes = 0 := by
  cases c <;> simpa

theorem nonKeyZero_resetRow (now : Nat) (sid : String) (cfg : StatsConfig)
    (t : TelemetryStats) : NonKeyCountersZero (resetRow false now sid cfg t) := by
  refine ⟨rfl, rfl, rfl, rfl, rfl, rfl, rfl, rfl, rfl, rfl,
    distClearValues_zero _, rfl, rfl, rfl, rfl, rfl, rfl, rfl, rfl, rfl, rfl, rfl,
    distClearValues_zero _, ite_fileSize_zero _ _ _ rfl rfl, ?_, rfl,
    sdistClearValues_zero _, sdistClearValues_zero _, rfl, rfl, rfl⟩
  intro q hq
  obtain ⟨p, _, rfl⟩ := List.mem_map.mp hq
  exact ⟨rfl, rfl, rfl, rfl, rfl, rfl, rfl⟩

set_option maxHeartbeats 800000 in
theorem privateSnap_statsSequenceNum (sid tokc : String) (freq : Nat)
    (kind : RollUpKind) (now : Nat) (ts : TelemetryStats) :
    (privateSnapStatsToRecord sid tokc freq kind now ts).2.statsSequenceNum
      = ts.statsSequenceNum := by
  simp only [privateSnapStatsToRecord]

set_option maxHeartbeats 800000 in
theorem privateSnap_sessionStartTimestamp (sid tokc : String) (freq : Nat)
    (kind : RollUpKind) (now : Nat) (ts : TelemetryStats) :
    (privateSnapStatsToRecord sid tokc freq kind now ts).2.sessionStartTimestamp
      = ts.sessionStartTimestamp := by
  simp only [privateSnapStatsToRecord]

theorem resetRow_false_seq (now : Nat) (sid : String) (cfg : StatsConfig)
    (t : TelemetryStats) :
    (resetRow false now sid cfg t).statsSequenceNum
      = (t.statsSequenceNum + 1) % U32 := rfl

theorem resetRow_false_sessionStart (now : Nat) (sid : String) (cfg : StatsConfig)
    (t : TelemetryStats) :
    (resetRow false now sid cfg t).sessionStartTimestamp
      = t.sessionStartTimestamp := rfl

theorem snapStatsToRecord_snd_sessionId (s : MetaStatsState) (kind : RollUpKind)
    (now : Nat) :
    (snapStatsToRecord s kind now).2.m_sessionId = s.m_sessionId := by
  unfold snapStatsToRecord
  split <;> rfl

theorem snapStatsToRecord_snd_config (s : MetaStatsState) (kind : RollUpKind)
    (now : Nat) :
    (snapStatsToRecord s kind now).2.m_statsConfig = s.m_statsConfig := by
  unfold snapStatsToRecord
  split <;> rfl

theorem snapStatsToRecord_fst_length (s : MetaStatsState) (kind : RollUpKind)
    (now : Nat) (h : kind ≠ ACT_STATS_ROLLUP_KIND_ONGOING) :
    (snapStatsToRecord s kind now).1.length
      = s.m_telemetryTenantStats.length + 1 := by
  simp only [snapStatsToRecord]
  rw [if_pos h]
  simp [snapLoop_fst_length]

theorem generateStatsEvent_start (s : MetaStatsState) (now : Nat) :
    generateStatsEvent s ACT_STATS_ROLLUP_KIND_START now
      = ((snapStatsToRecord s ACT_STATS_ROLLUP_KIND_START now).1,
         resetStats (snapStatsToRecord s ACT_STATS_ROLLUP_KIND_START now).2
           false now) := by
  unfold generateStatsEvent
  rw [if_pos (Or.inr (by decide :
    (ACT_STATS_ROLLUP_KIND_START : RollUpKind) ≠ ACT_STATS_ROLLUP_KIND_ONGOING))]
  rw [if_neg (by decide :
    ¬ (ACT_STATS_ROLLUP_KIND_START : RollUpKind) = ACT_STATS_ROLLUP_KIND_STOP)]

theorem generateStatsEvent_start_tenants (s : MetaStatsState) (now : Nat) :
    (generateStatsEvent s ACT_STATS_ROLLUP_KIND_START now).2.m_telemetryTenantStats
      = s.m_telemetryTenantStats.map (fun p => (p.1,
          resetRow false now s.m_sessionId s.m_statsConfig
            (privateSnapStatsToRecord s.m_sessionId s.metaStatsTenantToken
              s.metaStatsSendIntervalSec ACT_STATS_ROLLUP_KIND_START now
              p.2).2)) := by
  rw [generateStatsEvent_start]
  show ((snapStatsToRecord s ACT_STATS_ROLLUP_KIND_START
      now).2.m_telemetryTenantStats.map
      (fun p => (p.1, resetRow false now
        (snapStatsToRecord s ACT_STATS_ROLLUP_KIND_START now).2.m_sessionId
        (snapStatsToRecord s ACT_STATS_ROLLUP_KIND_START now).2.m_statsConfig
        p.2))) = _
  rw [snapStatsToRecord_snd_sessionId, snapStatsToRecord_snd_config,
    snapStatsToRecord_snd_tenants, snapLoop_snd, List.map_map]
  rfl

theorem mem_zip_map {κ α β : Type} (l : List (κ × α)) (g : κ × α → κ × β) :
    ∀ q ∈ List.zip l (l.map g), q.2 = g q.1 ∧ q.1 ∈ l := by
  induction l with
  | nil => simp
  | cons p tl ih =>
      intro q hq
      simp only [List.map_cons, List.zip_cons_cons, List.mem_cons] at hq
      rcases hq with rfl | hq
      · exact ⟨rfl, by simp⟩
      · obtain ⟨h1, h2⟩ := ih q hq
        exact ⟨h1, by simp [h2]⟩

/-- Claim C1 counterexample: on the one-tenant example state (sequence number
5, session start 3), a Start rollup leaves the tenant row with sequence
number 6 and session start 3, while the claim requires sequence number 0 and
a session start refreshed to the rollup time 9. -/
theorem claim_C1_counterexample :
    ((generateStatsEvent exampleState ACT_STATS_ROLLUP_KIND_START
      9).2.m_telemetryTenantStats.map (fun p => p.2.statsSequenceNum)) = [6] ∧
    (6 : Nat) ≠ 0 ∧
    ((generateStatsEvent exampleState ACT_STATS_ROLLUP_KIND_START
      9).2.m_telemetryTenantStats.map (fun p => p.2.sessionStartTimestamp)) = [3] ∧
    (3 : Nat) ≠ 9 := by
  exact ⟨by decide, by decide, by decide, by decide⟩

/-- Claim C1 as amended: generate_stats_event(Start) snapshots every tenant
row and the global row (one record per tenant plus one global record) and
then resets with start = false, so that afterwards every tenant row keeps its
token, has its statsSequenceNum incremented by one (not set to 0), its
statsStartMs refreshed and the session id propagated, its sessionStartMs
unchanged (not refreshed), and all non-key counter state zero; the
rejection- and dropped-reason map values are not among the cleared state. -/
theorem claim_C1_amended (s : MetaStatsState) (now : Nat)
    (hseq : ∀ p ∈ s.m_telemetryTenantStats, p.2.statsSequenceNum + 1 < U32) :
    (generateStatsEvent s ACT_STATS_ROLLUP_KIND_START now).1.length
      = s.m_telemetryTenantStats.length + 1 ∧
    (generateStatsEvent s
      ACT_STATS_ROLLUP_KIND_START now).2.m_telemetryTenantStats.map Prod.fst
      = s.m_telemetryTenantStats.map Prod.fst ∧
    ∀ q ∈ List.zip s.m_telemetryTenantStats
        (generateStatsEvent s
          ACT_STATS_ROLLUP_KIND_START now).2.m_telemetryTenantStats,
      q.2.1 = q.1.1 ∧
      q.2.2.statsSequenceNum = q.1.2.statsSequenceNum + 1 ∧
      q.2.2.sessionStartTimestamp = q.1.2.sessionStartTimestamp ∧
      q.2.2.statsStartTimestamp = now ∧
      q.2.2.sessionId = s.m_sessionId ∧
      NonKeyCountersZero q.2.2 := by
  refine ⟨?_, ?_, ?_⟩
  · rw [generateStatsEvent_start]
    exact snapStatsToRecord_fst_length s _ now (by decide)
  · rw [generateStatsEvent_start_tenants, mapFst_map_pair]
  · intro q hq
    rw [generateStatsEvent_start_tenants] at hq
    obtain ⟨hq2, hq1⟩ := mem_zip_map _ _ q hq
    rw [hq2]
    refine ⟨rfl, ?_, ?_, rfl, rfl,
      nonKeyZero_resetRow now s.m_sessionId s.m_statsConfig _⟩
    · have h1 : ((q.1.1, resetRow false now s.m_sessionId s.m_statsConfig
          (privateSnapStatsToRecord s.m_sessionId s.metaStatsTenantToken
            s.metaStatsSendIntervalSec ACT_STATS_ROLLUP_KIND_START now
            q.1.2).2) : String × TelemetryStats).2.statsSequenceNum
          = ((privateSnapStatsToRecord s.m_sessionId s.metaStatsTenantToken
              s.metaStatsSendIntervalSec ACT_STATS_ROLLUP_KIND_START now
              q.1.2).2.statsSequenceNum + 1) % U32 :=
        resetRow_false_seq now s.m_sessionId s.m_statsConfig _
      rw [h1, privateSnap_statsSequenceNum]
      exact Nat.mod_eq_of_lt (hseq q.1 hq1)
    · have h2 : ((q.1.1, resetRow false now s.m_sessionId s.m_statsConfig
          (privateSnapStatsToRecord s.m_sessionId s.metaStatsTenantToken
            s.metaStatsSendIntervalSec ACT_STATS_ROLLUP_KIND_START now
            q.1.2).2) : String × TelemetryStats).2.sessionStartTimestamp
          = (privateSnapStatsToRecord s.m_sessionId s.metaStatsTenantToken
              s.metaStatsSendIntervalSec ACT_STATS_ROLLUP_KIND_START now
              q.1.2).2.sessionStartTimestamp :=
        resetRow_false_sessionStart now s.m_sessionId s.m_statsConfig _
      rw [h2, privateSnap_sessionStartTimestamp]

/-- Claim C1 amended witness at the concrete one-tenant example state. -/
theorem claim_C1_amended_witness :
    (generateStatsEvent exampleState ACT_STATS_ROLLUP_KIND_START 9).1.length
      = exampleState.m_telemetryTenantStats.length + 1 ∧
    (generateStatsEvent exampleState
      ACT_STATS_ROLLUP_KIND_START 9).2.m_telemetryTenantStats.map Prod.fst
      = exampleState.m_telemetryTenantStats.map Prod.fst ∧
    ∀ q ∈ List.zip exampleState.m_telemetryTenantStats
        (generateStatsEvent exampleState
          ACT_STATS_ROLLUP_KIND_START 9).2.m_telemetryTenantStats,
      q.2.1 = q.1.1 ∧
      q.2.2.statsSequenceNum = q.1.2.statsSequenceNum + 1 ∧
      q.2.2.sessionStartTimestamp = q.1.2.sessionStartTimestamp ∧
      q.2.2.statsStartTimestamp = 9 ∧
      q.2.2.sessionId = exampleState.m_sessionId ∧
      NonKeyCountersZero q.2.2 :=
  claim_C1_amended exampleState 9 (by decide)

theorem alistGetD_alistIdx_self {κ α : Type} [DecidableEq κ] (d d₂ : α) (k : κ)
    (f : α → α) (m : List (κ × α)) :
    alistGetD d₂ k (alistIdx d k f m) = f (alistGetD d k m) :=
  alistGetD_of_find d₂ (alistFind?_alistIdx_self d k f m)

theorem alistGetD_alistTouch {κ α : Type} [DecidableEq κ] (d : α) (q b : κ)
    (m : List (κ × α)) :
    alistGetD d q (alistTouch d b m) = alistGetD d q m := by
  by_cases h : q = b
  · subst h
    exact alistGetD_alistIdx_self d d q id m
  · exact alistGetD_alistIdx_ne h d d id m

theorem mem_keys_alistIdx_self {κ α : Type} [DecidableEq κ] (d : α) (k : κ)
    (f : α → α) (m : List (κ × α)) : k ∈ (alistIdx d k f m).map Prod.fst :=
  alistFind?_mem_keys (alistFind?_alistIdx_self d k f m)

theorem mem_keys_alistIdx_of_mem {κ α : Type} [DecidableEq κ] {q : κ} (d : α)
    (k : κ) (f : α → α) {m : List (κ × α)} (h : q ∈ m.map Prod.fst) :
    q ∈ (alistIdx d k f m).map Prod.fst := by
  induction m with
  | nil => simp at h
  | cons p tl ih =>
      obtain ⟨k', v⟩ := p
      simp only [alistIdx]
      by_cases hk : k = k'
      · rw [if_pos hk]
        simp only [List.map_cons, List.mem_cons] at h ⊢
        exact h
      · rw [if_neg hk]
        simp only [List.map_cons, List.mem_cons] at h ⊢
        rcases h with h | h
        · exact Or.inl h
        · exact Or.inr (ih h)

theorem distSorted_distTouch {d : Dist} (hs : DistSorted d) (b : Nat) :
    DistSorted (distTouch b d) :=
  distSorted_distIdx hs b id

theorem snapRecordFields_snd_fst (rs : RecordStats) (ext : List (String × String)) :
    (snapRecordFields rs ext).2.1
      = distTouch REJECTED_REASON_EVENT_SIZE_LIMIT_EXCEEDED
          (distTouch REJECTED_REASON_TENANT_KILLED
            (distTouch REJECTED_REASON_SERVER_DECLINED
              (distTouch REJECTED_REASON_EVENT_EXPIRED
                (distTouch REJECTED_REASON_OLD_RECORD_VERSION
                  (distTouch REJECTED_REASON_VALIDATION_FAILED
                    (distTouch REJECTED_REASON_EVENT_NAME_MISSING
                      (distTouch REJECTED_REASON_REQUIRED_ARGUMENT_MISSING
                        (distTouch REJECTED_REASON_INVALID_CLIENT_MESSAGE_TYPE
                          rs.rejectedCountReasonDistribution)))))))) := rfl

theorem snapRecordFields_snd_snd (rs : RecordStats) (ext : List (String × String)) :
    (snapRecordFields rs ext).2.2
      = distTouch DROPPED_REASON_RETRY_EXCEEDED
          (distTouch DROPPED_REASON_OFFLINE_STORAGE_SAVE_FAILED
            rs.droppedCountReasonDistribution) := rfl

theorem snapPrioBlock_perLat (lat : Int)
    (inserts : List (String × (RecordStats → Nat))) (k1 k2 k3 k4 : String)
    (st : List (String × String) × List (Int × RecordStats) × List (Int × LatencyStats)) :
    (snapPrioBlock lat inserts k1 k2 k3 k4 st).2.1 = alistTouch {} lat st.2.1 := by
  simp only [snapPrioBlock]
  split <;> rfl

theorem snapPrioBlock_logLat_getD (lat : Int)
    (inserts : List (String × (RecordStats → Nat))) (k1 k2 k3 k4 : String)
    (st : List (String × String) × List (Int × RecordStats) × List (Int × LatencyStats))
    (q : Int) :
    alistGetD {} q (snapPrioBlock lat inserts k1 k2 k3 k4 st).2.2
      = alistGetD {} q st.2.2 := by
  simp only [snapPrioBlock]
  split
  · exact alistGetD_alistTouch {} q lat st.2.2
  · rfl

theorem snapPrioBlock_logLat_mem_self (lat : Int)
    (inserts : List (String × (RecordStats → Nat))) (k1 k2 k3 k4 : String)
    (st : List (String × String) × List (Int × RecordStats) × List (Int × LatencyStats))
    (h : 0 < (alistGetD {} lat st.2.1).sentCount) :
    lat ∈ ((snapPrioBlock lat inserts k1 k2 k3 k4 st).2.2).map Prod.fst := by
  simp only [snapPrioBlock]
  rw [alistGetD_alistTouch]
  split
  · exact mem_keys_alistIdx_self _ _ id _
  · rename_i hc
    exact absurd h hc

theorem snapPrioBlock_logLat_mem_mono (lat : Int)
    (inserts : List (String × (RecordStats → Nat))) (k1 k2 k3 k4 : String)
    (st : List (String × String) × List (Int × RecordStats) × List (Int × LatencyStats))
    {q : Int} (h : q ∈ st.2.2.map Prod.fst) :
    q ∈ ((snapPrioBlock lat inserts k1 k2 k3 k4 st).2.2).map Prod.fst := by
  simp only [snapPrioBlock]
  split
  · exact mem_keys_alistIdx_of_mem _ _ id h
  · exact h

set_option maxHeartbeats 800000 in
theorem privateSnap_rejMap (sid tok : String) (freq : Nat) (kind : RollUpKind)
    (now : Nat) (ts : TelemetryStats) :
    (privateSnapStatsToRecord sid tok freq kind now
        ts).2.recordStats.rejectedCountReasonDistribution
      = distTouch REJECTED_REASON_EVENT_SIZE_LIMIT_EXCEEDED
          (distTouch REJECTED_REASON_TENANT_KILLED
            (distTouch REJECTED_REASON_SERVER_DECLINED
              (distTouch REJECTED_REASON_EVENT_EXPIRED
                (distTouch REJECTED_REASON_OLD_RECORD_VERSION
                  (distTouch REJECTED_REASON_VALIDATION_FAILED
                    (distTouch REJECTED_REASON_EVENT_NAME_MISSING
                      (distTouch REJECTED_REASON_REQUIRED_ARGUMENT_MISSING
                        (distTouch REJECTED_REASON_INVALID_CLIENT_MESSAGE_TYPE
                          ts.recordStats.rejectedCountReasonDistribution)))))))) := by
  simp only [privateSnapStatsToRecord]
  exact snapRecordFields_snd_fst ts.recordStats _

set_option maxHeartbeats 800000 in
theorem privateSnap_drpMap (sid tok : String) (freq : Nat) (kind : RollUpKind)
    (now : Nat) (ts : TelemetryStats) :
    (privateSnapStatsToRecord sid tok freq kind now
        ts).2.recordStats.droppedCountReasonDistribution
      = distTouch DROPPED_REASON_RETRY_EXCEEDED
          (distTouch DROPPED_REASON_OFFLINE_STORAGE_SAVE_FAILED
            ts.recordStats.droppedCountReasonDistribution) := by
  simp only [privateSnapStatsToRecord]
  exact snapRecordFields_snd_snd ts.recordStats _

set_option maxHeartbeats 800000 in
theorem privateSnap_perLat (sid tok : String) (freq : Nat) (kind : RollUpKind)
    (now : Nat) (ts : TelemetryStats) :
    (privateSnapStatsToRecord sid tok freq kind now ts).2.recordStatsPerLatency
      = alistTouch {} EventLatency_Max
          (alistTouch {} EventLatency_RealTime
            (alistTouch {} EventLatency_CostDeferred
              (alistTouch {} EventLatency_Normal ts.recordStatsPerLatency))) := by
  simp only [privateSnapStatsToRecord]
  rw [snapPrioBlock_perLat, snapPrioBlock_perLat, snapPrioBlock_perLat,
    snapPrioBlock_perLat]

set_option maxHeartbeats 800000 in
theorem privateSnap_logLat_getD (sid tok : String) (freq : Nat) (kind : RollUpKind)
    (now : Nat) (ts : TelemetryStats) (q : Int) :
    alistGetD {} q (privateSnapStatsToRecord sid tok freq kind now
        ts).2.logToSuccessfulSendLatencyPerLatency
      = alistGetD {} q ts.logToSuccessfulSendLatencyPerLatency := by
  simp only [privateSnapStatsToRecord]
  rw [snapPrioBlock_logLat_getD, snapPrioBlock_logLat_getD,
    snapPrioBlock_logLat_getD, snapPrioBlock_logLat_getD]

set_option maxHeartbeats 800000 in
theorem privateSnap_logLat_mem (sid tok : String) (freq : Nat) (kind : RollUpKind)
    (now : Nat) (ts : TelemetryStats) :
    ∀ lat ∈ [EventLatency_Normal, EventLatency_CostDeferred, EventLatency_RealTime,
      EventLatency_Max],
      0 < (alistGetD {} lat ts.recordStatsPerLatency).sentCount →
      lat ∈ ((privateSnapStatsToRecord sid tok freq kind now
        ts).2.logToSuccessfulSendLatencyPerLatency.map Prod.fst) := by
  intro lat hlat h
  simp only [List.mem_cons, List.not_mem_nil, or_false] at hlat
  simp only [privateSnapStatsToRecord]
  rcases hlat with rfl | rfl | rfl | rfl
  · apply snapPrioBlock_logLat_mem_mono
    apply snapPrioBlock_logLat_mem_mono
    apply snapPrioBlock_logLat_mem_mono
    exact snapPrioBlock_logLat_mem_self _ _ _ _ _ _ _ h
  · apply snapPrioBlock_logLat_mem_mono
    apply snapPrioBlock_logLat_mem_mono
    apply snapPrioBlock_logLat_mem_self
    rw [snapPrioBlock_perLat, alistGetD_alistTouch]
    exact h
  · apply snapPrioBlock_logLat_mem_mono
    apply snapPrioBlock_logLat_mem_self
    rw [snapPrioBlock_perLat, snapPrioBlock_perLat, alistGetD_alistTouch,
      alistGetD_alistTouch]
    exact h
  · apply snapPrioBlock_logLat_mem_self
    rw [snapPrioBlock_perLat, snapPrioBlock_perLat, snapPrioBlock_perLat,
      alistGetD_alistTouch, alistGetD_alistTouch, alistGetD_alistTouch]
    exact h

set_option maxHeartbeats 1000000 in
theorem privateSnap_frame (sid tok : String) (freq : Nat) (kind : RollUpKind)
    (now : Nat) (ts : TelemetryStats) :
    projectionFramePreserved ts (privateSnapStatsToRecord sid tok freq kind now ts).2 := by
  refine ⟨?_, ?_, ?_, ?_, ?_, ?_, ?_, ?_, ?_, ?_, ?_, ?_, ?_, ?_, ?_, ?_, ?_, ?_,
    ?_, ?_, ?_, ?_, ?_, ?_, ?_, ?_, ?_, ?_, ?_⟩ <;>
    simp only [privateSnapStatsToRecord]

/-- Claim C10: snapshotting a row mutates the row itself through its
operator-bracket reads: afterwards all nine rejection reasons are keys of its
rejection-reason map and both dropped reasons are keys of its dropped-reason
map, the four latency classes are keys of its per-latency record map, and
each latency class whose per-latency sent count is non-zero is a key of its
log-to-successful-send latency map; every stored value of those four maps is
read back unchanged (absent keys read as the default, so the inserted entries
are default-valued), and every other field of the row is untouched. -/
theorem claim_C10 (sid tok : String) (freq : Nat) (kind : RollUpKind) (now : Nat)
    (ts u : TelemetryStats)
    (hrej : DistSorted ts.recordStats.rejectedCountReasonDistribution)
    (hdrp : DistSorted ts.recordStats.droppedCountReasonDistribution)
    (hu : u = (privateSnapStatsToRecord sid tok freq kind now ts).2) :
    (∀ r ∈ [REJECTED_REASON_INVALID_CLIENT_MESSAGE_TYPE,
        REJECTED_REASON_REQUIRED_ARGUMENT_MISSING, REJECTED_REASON_EVENT_NAME_MISSING,
        REJECTED_REASON_VALIDATION_FAILED, REJECTED_REASON_OLD_RECORD_VERSION,
        REJECTED_REASON_EVENT_EXPIRED, REJECTED_REASON_SERVER_DECLINED,
        REJECTED_REASON_TENANT_KILLED, REJECTED_REASON_EVENT_SIZE_LIMIT_EXCEEDED],
      r ∈ distKeys u.recordStats.rejectedCountReasonDistribution) ∧
    (∀ r, distGetD r u.recordStats.rejectedCountReasonDistribution
        = distGetD r ts.recordStats.rejectedCountReasonDistribution) ∧
    (∀ r ∈ [DROPPED_REASON_OFFLINE_STORAGE_SAVE_FAILED, DROPPED_REASON_RETRY_EXCEEDED],
      r ∈ distKeys u.recordStats.droppedCountReasonDistribution) ∧
    (∀ r, distGetD r u.recordStats.droppedCountReasonDistribution
        = distGetD r ts.recordStats.droppedCountReasonDistribution) ∧
    (∀ lat ∈ [EventLatency_Normal, EventLatency_CostDeferred, EventLatency_RealTime,
        EventLatency_Max], lat ∈ u.recordStatsPerLatency.map Prod.fst) ∧
    (∀ lat, alistGetD {} lat u.recordStatsPerLatency
        = alistGetD {} lat ts.recordStatsPerLatency) ∧
    (∀ lat ∈ [EventLatency_Normal, EventLatency_CostDeferred, EventLatency_RealTime,
        EventLatency_Max],
      0 < (alistGetD {} lat ts.recordStatsPerLatency).sentCount →
      lat ∈ (u.logToSuccessfulSendLatencyPerLatency.map Prod.fst)) ∧
    (∀ lat, alistGetD {} lat u.logToSuccessfulSendLatencyPerLatency
        = alistGetD {} lat ts.logToSuccessfulSendLatencyPerLatency) ∧
    projectionFramePreserved ts u := by
  subst hu
  refine ⟨?_, ?_, ?_, ?_, ?_, ?_, privateSnap_logLat_mem sid tok freq kind now ts,
    fun q => privateSnap_logLat_getD sid tok freq kind now ts q,
    privateSnap_frame sid tok freq kind now ts⟩
  · intro r hr
    rw [privateSnap_rejMap]
    simp only [List.mem_cons, List.not_mem_nil, or_false] at hr
    rcases hr with rfl | rfl | rfl | rfl | rfl | rfl | rfl | rfl | rfl
    · exact mem_distKeys_distIdx_of_mem _ id (mem_distKeys_distIdx_of_mem _ id
        (mem_distKeys_distIdx_of_mem _ id (mem_distKeys_distIdx_of_mem _ id
          (mem_distKeys_distIdx_of_mem _ id (mem_distKeys_distIdx_of_mem _ id
            (mem_distKeys_distIdx_of_mem _ id (mem_distKeys_distIdx_of_mem _ id
              (mem_distKeys_distIdx_self _ id _))))))))
    · exact mem_distKeys_distIdx_of_mem _ id (mem_distKeys_distIdx_of_mem _ id
        (mem_distKeys_distIdx_of_mem _ id (mem_distKeys_distIdx_of_mem _ id
          (mem_distKeys_distIdx_of_mem _ id (mem_distKeys_distIdx_of_mem _ id
            (mem_distKeys_distIdx_of_mem _ id
              (mem_distKeys_distIdx_self _ id _)))))))
    · exact mem_distKeys_distIdx_of_mem _ id (mem_distKeys_distIdx_of_mem _ id
        (mem_distKeys_distIdx_of_mem _ id (mem_distKeys_distIdx_of_mem _ id
          (mem_distKeys_distIdx_of_mem _ id (mem_distKeys_distIdx_of_mem _ id
            (mem_distKeys_distIdx_self _ id _))))))
    · exact mem_distKeys_distIdx_of_mem _ id (mem_distKeys_distIdx_of_mem _ id
        (mem_distKeys_distIdx_of_mem _ id (mem_distKeys_distIdx_of_mem _ id
          (mem_distKeys_distIdx_of_mem _ id (mem_distKeys_distIdx_self _ id _)))))
    · exact mem_distKeys_distIdx_of_mem _ id (mem_distKeys_distIdx_of_mem _ id
        (mem_distKeys_distIdx_of_mem _ id (mem_distKeys_distIdx_of_mem _ id
          (mem_distKeys_distIdx_self _ id _))))
    · exact mem_distKeys_distIdx_of_mem _ id (mem_distKeys_distIdx_of_mem _ id
        (mem_distKeys_distIdx_of_mem _ id (mem_distKeys_distIdx_self _ id _)))
    · exact mem_distKeys_distIdx_of_mem _ id (mem_distKeys_distIdx_of_mem _ id
        (mem_distKeys_distIdx_self _ id _))
    · exact mem_distKeys_distIdx_of_mem _ id (mem_distKeys_distIdx_self _ id _)
    · exact mem_distKeys_distIdx_self _ id _
  · intro r
    rw [privateSnap_rejMap]
    have s0 := hrej
    have s1 := distSorted_distTouch s0 REJECTED_REASON_INVALID_CLIENT_MESSAGE_TYPE
    have s2 := distSorted_distTouch s1 REJECTED_REASON_REQUIRED_ARGUMENT_MISSING
    have s3 := distSorted_distTouch s2 REJECTED_REASON_EVENT_NAME_MISSING
    have s4 := distSorted_distTouch s3 REJECTED_REASON_VALIDATION_FAILED
    have s5 := distSorted_distTouch s4 REJECTED_REASON_OLD_RECORD_VERSION
    have s6 := distSorted_distTouch s5 REJECTED_REASON_EVENT_EXPIRED
    have s7 := distSorted_distTouch s6 REJECTED_REASON_SERVER_DECLINED
    have s8 := distSorted_distTouch s7 REJECTED_REASON_TENANT_KILLED
    simp only [distGetD_distTouch s8, distGetD_distTouch s7, distGetD_distTouch s6,
      distGetD_distTouch s5, distGetD_distTouch s4, distGetD_distTouch s3,
      distGetD_distTouch s2, distGetD_distTouch s1, distGetD_distTouch s0]
  · intro r hr
    rw [privateSnap_drpMap]
    simp only [List.mem_cons, List.not_mem_nil, or_false] at hr
    rcases hr with rfl | rfl
    · exact mem_distKeys_distIdx_of_mem _ id (mem_distKeys_distIdx_self _ id _)
    · exact mem_distKeys_distIdx_self _ id _
  · intro r
    rw [privateSnap_drpMap]
    have s0 := hdrp
    have s1 := distSorted_distTouch s0 DROPPED_REASON_OFFLINE_STORAGE_SAVE_FAILED
    simp only [distGetD_distTouch s1, distGetD_distTouch s0]
  · intro lat hlat
    rw [privateSnap_perLat]
    simp only [List.mem_cons, List.not_mem_nil, or_false] at hlat
    rcases hlat with rfl | rfl | rfl | rfl
    · exact mem_keys_alistIdx_of_mem _ _ id (mem_keys_alistIdx_of_mem _ _ id
        (mem_keys_alistIdx_of_mem _ _ id (mem_keys_alistIdx_self _ _ id _)))
    · exact mem_keys_alistIdx_of_mem _ _ id (mem_keys_alistIdx_of_mem _ _ id
        (mem_keys_alistIdx_self _ _ id _))
    · exact mem_keys_alistIdx_of_mem _ _ id (mem_keys_alistIdx_self _ _ id _)
    · exact mem_keys_alistIdx_self _ _ id _
  · intro lat
    rw [privateSnap_perLat, alistGetD_alistTouch, alistGetD_alistTouch,
      alistGetD_alistTouch, alistGetD_alistTouch]

/-- Claim C10 witness: on the example row (whose reason maps are empty, hence
sorted), the Start snapshot at time 9 leaves a row whose rejection-reason map
has the size-limit reason among its keys. -/
theorem claim_C10_witness :
    DistSorted exampleRow.recordStats.rejectedCountReasonDistribution ∧
    DistSorted exampleRow.recordStats.droppedCountReasonDistribution ∧
    REJECTED_REASON_EVENT_SIZE_LIMIT_EXCEEDED ∈ distKeys
      (privateSnapStatsToRecord "sid" "mst-abc" 0 ACT_STATS_ROLLUP_KIND_START 9
        exampleRow).2.recordStats.rejectedCountReasonDistribution :=
  ⟨by decide, by decide,
    (claim_C10 "sid" "mst-abc" 0 ACT_STATS_ROLLUP_KIND_START 9 exampleRow _
      (by decide) (by decide) rfl).1 REJECTED_REASON_EVENT_SIZE_LIMIT_EXCEEDED
      (by decide)⟩

end MetaStatsModel



